import Mathlib

/-!
Shallow embedding of the zus_chatbot repository for specification checking.

Source files modelled here:
 - src/api/calculator.py      (calculate_get endpoint, asteval-backed arithmetic)
 - src/chatbot/main_agent.py  (session history store)
 - src/scripts/load_products.py (ProductVectorStore: build/search/save/load)
 - src/api/products.py        (validate_product_query, search_products endpoint)
 - src/api/outlets.py         (Text2SQLConverter.preprocess_query, convert_to_sql,
                               validate_outlet_query, query_outlets endpoint)

Modelling conventions:
 - Python strings are Lean `String`/`List Char`. The literal character
   classes of the source regexes ([0-9...] in the calculator, [a-zA-Z0-9] in
   the validators) are ASCII as written; \s / str.isspace uses the standard
   Unicode whitespace list, and the \d and \w classes of the time pattern
   use the full Unicode tables of CPython (category Nd digits with their
   decimal values, and isalnum-plus-underscore word characters).
 - Python numbers are modelled as rationals; float rounding never decides any
   claim settled here.
 - External effects (the Gemini generator, the SQLite database, the sentence
   embedding model, the AI summary) are oracle function parameters.
 - Fallible code returns Option/Except; endpoints return a response inductive.
 - Several functions carry an extra trace component recording whether the
   downstream backend (evaluator, generator, database, vector search) was
   actually invoked, so that claims about calls being skipped are statable.
-/

set_option maxRecDepth 100000

/-- Unicode whitespace, as matched by Python's `\s` (re) and `str.isspace`/
`str.split`/`str.strip` for `str` arguments. -/
def pyWhitespace : List Char :=
  [' ', '\t', '\n', '\r', '\x0b', '\x0c',
   '\x1c', '\x1d', '\x1e', '\x1f', '\x85', '\xa0',
   ' ', ' ', ' ', ' ', ' ', ' ', ' ',
   ' ', ' ', ' ', ' ', ' ', ' ', ' ',
   ' ', ' ', '　']

/-- Whether a character is Python whitespace. -/
def isPySpace (c : Char) : Bool := pyWhitespace.contains c

/-- Python `str.strip()`: remove leading and trailing whitespace. -/
def pyStrip (s : List Char) : List Char :=
  ((s.dropWhile isPySpace).reverse.dropWhile isPySpace).reverse

/-- Helper for `pyWordCount`: count maximal non-whitespace runs, given whether
the scan is currently inside such a run. -/
def countWordsAux : List Char → Bool → Nat
  | [], _ => 0
  | c :: rest, inWord =>
    if isPySpace c then countWordsAux rest false
    else (if inWord then 0 else 1) + countWordsAux rest true

/-- Python `len(s.split())`: the number of whitespace-separated words. -/
def pyWordCount (s : List Char) : Nat := countWordsAux s false

/-- Whether the string has at least one ASCII alphanumeric character, i.e.
Python `re.search(r"[a-zA-Z0-9]", s)` succeeds. -/
def hasAlnum (s : List Char) : Bool := s.any (fun c => c.isAlphanum)

/- ---------------------------------------------------------------------- -/
/- src/api/calculator.py                                                  -/
/- ---------------------------------------------------------------------- -/

/-- Membership in the character class `[0-9+\-*/().\s]` of the whitelist regex
in `calculate_get` (src/api/calculator.py line 25). -/
def allowedCalcChar (c : Char) : Bool :=
  c.isDigit || ['+', '-', '*', '/', '(', ')', '.'].contains c || isPySpace c

/-- Python `re.match(r'^[0-9+\-*/().\s]+$', expr)` succeeds exactly when the
string is non-empty and every character is in the class (a trailing newline
before `$` is itself in the class, so no separate case is needed). -/
def calcWhitelist (s : List Char) : Bool := !s.isEmpty && s.all allowedCalcChar

/-- Tokens of the arithmetic expressions accepted by the whitelist. `dstar` is
Python `**` and `dslash` is Python `//`, both of which are whitelisted. -/
inductive CalcTok where
  | num (v : ℚ)
  | plus
  | minus
  | star
  | slash
  | dstar
  | dslash
  | lparen
  | rparen
deriving DecidableEq

/-- Consume a leading run of ASCII digits, returning their values and the rest. -/
def lexDigits : List Char → List Nat × List Char
  | [] => ([], [])
  | c :: rest =>
    if c.isDigit then
      let p := lexDigits rest
      ((c.toNat - 48) :: p.1, p.2)
    else ([], c :: rest)

/-- Numeric value of a digit list read most-significant first. -/
def digitsVal (ds : List Nat) : Nat := ds.foldl (fun a d => a * 10 + d) 0

/-- Lex one Python numeric literal of the shapes `\d+`, `\d+.\d*`, `.\d+`
(exponents are impossible inside the calculator whitelist). Returns the value
and the rest, or `none` when no valid literal starts here. -/
def lexNumber (l : List Char) : Option (ℚ × List Char) :=
  let ip := lexDigits l
  match ip.2 with
  | '.' :: r2 =>
    let fp := lexDigits r2
    if ip.1.isEmpty && fp.1.isEmpty then none
    else some ((digitsVal ip.1 : ℚ) + (digitsVal fp.1 : ℚ) / (10 : ℚ) ^ fp.1.length, fp.2)
  | _ => if ip.1.isEmpty then none else some ((digitsVal ip.1 : ℚ), ip.2)

/-- Tokenize a whitelisted expression. The fuel argument only serves
termination; `length + 1` is always enough because every step consumes at
least one character. -/
def lexCalc : Nat → List Char → Option (List CalcTok)
  | 0, _ => none
  | _, [] => some []
  | fuel + 1, c :: rest =>
    if isPySpace c then lexCalc fuel rest
    else if c.isDigit || c = '.' then
      match lexNumber (c :: rest) with
      | some (v, r) => (lexCalc fuel r).map (fun ts => CalcTok.num v :: ts)
      | none => none
    else if c = '+' then (lexCalc fuel rest).map (fun ts => CalcTok.plus :: ts)
    else if c = '-' then (lexCalc fuel rest).map (fun ts => CalcTok.minus :: ts)
    else if c = '*' then
      match rest with
      | '*' :: r => (lexCalc fuel r).map (fun ts => CalcTok.dstar :: ts)
      | _ => (lexCalc fuel rest).map (fun ts => CalcTok.star :: ts)
    else if c = '/' then
      match rest with
      | '/' :: r => (lexCalc fuel r).map (fun ts => CalcTok.dslash :: ts)
      | _ => (lexCalc fuel rest).map (fun ts => CalcTok.slash :: ts)
    else if c = '(' then (lexCalc fuel rest).map (fun ts => CalcTok.lparen :: ts)
    else if c = ')' then (lexCalc fuel rest).map (fun ts => CalcTok.rparen :: ts)
    else none

/-- Abstract syntax of the arithmetic expressions evaluated by asteval within
the calculator whitelist. -/
inductive AExpr where
  | num (v : ℚ)
  | neg (e : AExpr)
  | pos (e : AExpr)
  | add (a b : AExpr)
  | sub (a b : AExpr)
  | mul (a b : AExpr)
  | div (a b : AExpr)
  | fdiv (a b : AExpr)
  | pow (a b : AExpr)
deriving DecidableEq

mutual

/-- Parse `u_expr (("+"|"-") u_expr)*` continuation. -/
def parseArithRest : Nat → AExpr → List CalcTok → Option (AExpr × List CalcTok)
  | 0, _, _ => none
  | fuel + 1, acc, ts =>
    match ts with
    | CalcTok.plus :: r =>
      match parseTerm fuel r with
      | some (t, r2) => parseArithRest fuel (AExpr.add acc t) r2
      | none => none
    | CalcTok.minus :: r =>
      match parseTerm fuel r with
      | some (t, r2) => parseArithRest fuel (AExpr.sub acc t) r2
      | none => none
    | _ => some (acc, ts)

/-- Parse a Python arithmetic expression (`a_expr` level: + and -). -/
def parseArith : Nat → List CalcTok → Option (AExpr × List CalcTok)
  | 0, _ => none
  | fuel + 1, ts =>
    match parseTerm fuel ts with
    | some (t, r) => parseArithRest fuel t r
    | none => none

/-- Parse `unary (("*"|"/"|"//") unary)*` continuation. -/
def parseTermRest : Nat → AExpr → List CalcTok → Option (AExpr × List CalcTok)
  | 0, _, _ => none
  | fuel + 1, acc, ts =>
    match ts with
    | CalcTok.star :: r =>
      match parseUnary fuel r with
      | some (t, r2) => parseTermRest fuel (AExpr.mul acc t) r2
      | none => none
    | CalcTok.slash :: r =>
      match parseUnary fuel r with
      | some (t, r2) => parseTermRest fuel (AExpr.div acc t) r2
      | none => none
    | CalcTok.dslash :: r =>
      match parseUnary fuel r with
      | some (t, r2) => parseTermRest fuel (AExpr.fdiv acc t) r2
      | none => none
    | _ => some (acc, ts)

/-- Parse a multiplicative term (`m_expr` level: *, /, //). -/
def parseTerm : Nat → List CalcTok → Option (AExpr × List CalcTok)
  | 0, _ => none
  | fuel + 1, ts =>
    match parseUnary fuel ts with
    | some (t, r) => parseTermRest fuel t r
    | none => none

/-- Parse a unary expression (`u_expr` level: prefix + and -). -/
def parseUnary : Nat → List CalcTok → Option (AExpr × List CalcTok)
  | 0, _ => none
  | fuel + 1, ts =>
    match ts with
    | CalcTok.minus :: r =>
      match parseUnary fuel r with
      | some (t, r2) => some (AExpr.neg t, r2)
      | none => none
    | CalcTok.plus :: r =>
      match parseUnary fuel r with
      | some (t, r2) => some (AExpr.pos t, r2)
      | none => none
    | _ => parsePower fuel ts

/-- Parse a power (`power` level: `atom ["**" u_expr]`, right associative,
with a full unary expression allowed after `**` as in Python). -/
def parsePower : Nat → List CalcTok → Option (AExpr × List CalcTok)
  | 0, _ => none
  | fuel + 1, ts =>
    match parseAtom fuel ts with
    | some (a, r) =>
      match r with
      | CalcTok.dstar :: r2 =>
        match parseUnary fuel r2 with
        | some (b, r3) => some (AExpr.pow a b, r3)
        | none => none
      | _ => some (a, r)
    | none => none

/-- Parse an atom: a numeric literal or a parenthesized expression. -/
def parseAtom : Nat → List CalcTok → Option (AExpr × List CalcTok)
  | 0, _ => none
  | fuel + 1, ts =>
    match ts with
    | CalcTok.num v :: r => some (AExpr.num v, r)
    | CalcTok.lparen :: r =>
      match parseArith fuel r with
      | some (e, CalcTok.rparen :: r2) => some (e, r2)
      | _ => none
    | _ => none

end

/-- Evaluate an arithmetic AST the way Python/asteval does on the whitelisted
fragment. Division by zero (for `/`, `//` and `0 ** negative`) is the error
condition; `**` with a non-integer exponent generally produces an irrational
or complex float, which is outside the rational number model and no claim
depends on it, so a placeholder value of 0 is returned there. -/
def evalA : AExpr → Except String ℚ
  | AExpr.num v => Except.ok v
  | AExpr.neg e => (evalA e).map (fun v => -v)
  | AExpr.pos e => evalA e
  | AExpr.add a b => do
    let x ← evalA a
    let y ← evalA b
    Except.ok (x + y)
  | AExpr.sub a b => do
    let x ← evalA a
    let y ← evalA b
    Except.ok (x - y)
  | AExpr.mul a b => do
    let x ← evalA a
    let y ← evalA b
    Except.ok (x * y)
  | AExpr.div a b => do
    let x ← evalA a
    let y ← evalA b
    if y = 0 then Except.error "ZeroDivisionError: division by zero"
    else Except.ok (x / y)
  | AExpr.fdiv a b => do
    let x ← evalA a
    let y ← evalA b
    if y = 0 then Except.error "ZeroDivisionError: integer division or modulo by zero"
    else Except.ok ((⌊x / y⌋ : ℤ) : ℚ)
  | AExpr.pow a b => do
    let x ← evalA a
    let y ← evalA b
    if y.den = 1 then
      if 0 ≤ y.num then Except.ok (x ^ y.num.toNat)
      else if x = 0 then Except.error "ZeroDivisionError: 0.0 cannot be raised to a negative power"
      else Except.ok (x ^ y.num)
    else Except.ok 0

/-- Evaluate a whitelisted expression string: lex, parse, require the token
stream to be fully consumed, then evaluate. Any lexing/parsing failure is
the asteval `SyntaxError` path. -/
def evalArith (s : List Char) : Except String ℚ :=
  match lexCalc (s.length + 1) s with
  | none => Except.error "SyntaxError: invalid syntax"
  | some ts =>
    match parseArith (10 * ts.length + 10) ts with
    | some (e, []) => evalA e
    | _ => Except.error "SyntaxError: invalid syntax"

/-- Result payload of the calculator endpoint: Python `float | str`. -/
inductive CalcResult where
  | numeric (v : ℚ)
  | text (s : String)
deriving DecidableEq

/-- Response model of the calculator endpoint (class CalcOutput). -/
structure CalcOutput where
  expression : String
  result : CalcResult
  success : Bool
  error : Option String
deriving DecidableEq

/-- The `GET /calculator/` handler `calculate_get` (src/api/calculator.py
lines 20-62), with a trace flag recording whether the expression reached the
asteval evaluator. The whitelist regex gate runs first; if it fails, the
handler returns the invalid-characters payload without evaluating. Otherwise
the expression is evaluated and either the value or the recorded evaluation
error is returned; the surrounding try/except also lands in the
success=false shape. -/
def calculate_get_traced (expression : String) : CalcOutput × Bool :=
  if calcWhitelist expression.data then
    match evalArith expression.data with
    | Except.ok v =>
      ({ expression := expression, result := CalcResult.numeric v,
         success := true, error := none }, true)
    | Except.error msg =>
      ({ expression := expression, result := CalcResult.text "Error",
         success := false, error := some msg }, true)
  else
    ({ expression := expression, result := CalcResult.text "Error",
       success := false, error := some "Invalid characters in expression" }, false)

/-- The calculator endpoint's response alone. -/
def calculate_get (expression : String) : CalcOutput :=
  (calculate_get_traced expression).1

/- ---------------------------------------------------------------------- -/
/- src/chatbot/main_agent.py : session memory store                       -/
/- ---------------------------------------------------------------------- -/

/-- The module-level `session_store` dictionary mapping session ids to chat
message histories; a transcript is an ordered list of (opaque) messages. -/
def SessionStore : Type := String → Option (List String)

/-- `get_session_history` (src/chatbot/main_agent.py lines 39-42): create an
empty history when the id is absent, then return the (history, new store). -/
def get_session_history (store : SessionStore) (sid : String) :
    List String × SessionStore :=
  match store sid with
  | some h => (h, store)
  | none => ([], fun k => if k = sid then some [] else store k)

/-- `clear_session_history` (src/chatbot/main_agent.py lines 45-47): delete
the entry when present; absent ids are left untouched and raise nothing. -/
def clear_session_history (store : SessionStore) (sid : String) : SessionStore :=
  fun k => if k = sid then none else store k

/- ---------------------------------------------------------------------- -/
/- src/scripts/load_products.py : ProductVectorStore                      -/
/- ---------------------------------------------------------------------- -/

/-- One search hit of `ProductVectorStore.search`: a copy of the stored
product (metadata kept opaque as its document string) plus the score and the
1-based rank attached by the loop. -/
structure SearchResult where
  product : String
  similarity_score : ℚ
  rank : Nat
deriving DecidableEq

/-- The vector store: the rows held by the FAISS `IndexFlatIP` in insertion
order, the parallel `products` metadata list, and the recorded embedding
dimension. The sentence-transformer model is an oracle parameter of the
operations that embed text. -/
structure ProductVectorStore where
  vecs : List (List ℚ)
  products : List String
  dimension : Nat
deriving DecidableEq

/-- Inner product of two stored/query vectors (FAISS `IndexFlatIP` metric). -/
def dot (a b : List ℚ) : ℚ := (List.zipWith (fun x y => x * y) a b).sum

/-- The ordering used by the FAISS top-k extraction: higher score first, ties
by ascending insertion index. An element is a (score, insertion index) pair. -/
def simOrder (a b : ℚ × Nat) : Prop := b.1 < a.1 ∨ (a.1 = b.1 ∧ a.2 ≤ b.2)

instance : DecidableRel simOrder := fun a b => by
  unfold simOrder
  infer_instance

instance : IsTotal (ℚ × Nat) simOrder :=
  ⟨by
    intro a b
    unfold simOrder
    rcases lt_trichotomy a.1 b.1 with h | h | h
    · exact Or.inr (Or.inl h)
    · rcases Nat.le_total a.2 b.2 with h2 | h2
      · exact Or.inl (Or.inr ⟨h, h2⟩)
      · exact Or.inr (Or.inr ⟨h.symm, h2⟩)
    · exact Or.inl (Or.inl h)⟩

instance : IsTrans (ℚ × Nat) simOrder :=
  ⟨by
    intro a b c hab hbc
    unfold simOrder at *
    rcases hab with h1 | ⟨h1, i1⟩
    · rcases hbc with h2 | ⟨h2, i2⟩
      · exact Or.inl (h2.trans h1)
      · exact Or.inl (h2 ▸ h1)
    · rcases hbc with h2 | ⟨h2, i2⟩
      · exact Or.inl (h1 ▸ h2)
      · exact Or.inr ⟨h1.trans h2, i1.trans i2⟩⟩

/-- Model of `faiss.IndexFlatIP.search` on one query vector: score every
stored row by inner product, order by descending score (ties by ascending
insertion index, FAISS flat search being deterministic), return the top
`min k N` as (score, some index) and pad the remaining slots, when `k > N`,
with invalid entries carrying index -1 (modelled as `none`). -/
def faissSearch (vecs : List (List ℚ)) (q : List ℚ) (k : Nat) :
    List (ℚ × Option Nat) :=
  let scored := vecs.enum.map (fun p => (dot p.2 q, p.1))
  let top := (List.insertionSort simOrder scored).take k
  top.map (fun p => (p.1, some p.2)) ++ List.replicate (k - vecs.length) (0, none)

/-- The result-building loop of `ProductVectorStore.search` (src/scripts/
load_products.py lines 87-93): `for i, (score, idx) in enumerate(...)`,
skipping `idx == -1` slots, attaching `rank = i + 1`. -/
def attachRanks (products : List String) : Nat → List (ℚ × Option Nat) → List SearchResult
  | _, [] => []
  | i, (s, some idx) :: rest =>
    { product := products.getD idx "", similarity_score := s, rank := i + 1 }
      :: attachRanks products (i + 1) rest
  | i, (_, none) :: rest => attachRanks products (i + 1) rest

/-- `ProductVectorStore.search` (src/scripts/load_products.py lines 76-95):
embed the query (oracle `embed` stands for `model.encode` plus
`faiss.normalize_L2`), run the FAISS search, and build ranked results. -/
def ProductVectorStore.search (store : ProductVectorStore)
    (embed : String → List ℚ) (query : String) (top_k : Nat) : List SearchResult :=
  attachRanks store.products 0 (faissSearch store.vecs (embed query) top_k)

/-- The `metadata.json` header written by `save`. -/
structure VectorStoreMetadata where
  model_name : String
  dimension : Nat
  num_products : Nat
deriving DecidableEq

/-- The persisted bundle: `products.index` (the FAISS index contents),
`products.pkl` (the metadata records) and `metadata.json` (the header). -/
structure VectorStoreBundle where
  indexVecs : List (List ℚ)
  products : List String
  metadata : VectorStoreMetadata
deriving DecidableEq

/-- `ProductVectorStore.save` (src/scripts/load_products.py lines 98-119):
write the index, the product list, and a header recording the model name,
the store's dimension and the product count. -/
def ProductVectorStore.save (store : ProductVectorStore) : VectorStoreBundle :=
  { indexVecs := store.vecs,
    products := store.products,
    metadata := { model_name := "all-MiniLM-L6-v2",
                  dimension := store.dimension,
                  num_products := store.products.length } }

/-- `ProductVectorStore.load` (src/scripts/load_products.py lines 122-136):
read the index, the product list and the header, and adopt the header's
recorded dimension. The `Except` result type makes a load-time rejection
representable; the body performs no header validation of any kind, so every
bundle is accepted (file-system and unpickling faults are environment
failures outside this model, not checks performed by the function). -/
def ProductVectorStore.load (b : VectorStoreBundle) : Except String ProductVectorStore :=
  Except.ok { vecs := b.indexVecs, products := b.products, dimension := b.metadata.dimension }

/- ---------------------------------------------------------------------- -/
/- src/api/products.py                                                    -/
/- ---------------------------------------------------------------------- -/

/-- `validate_product_query` (src/api/products.py lines 119-127): reject
empty/whitespace input, input without alphanumeric content, and input over
100 characters or 20 words. There is no keyword check in this validator. -/
def validate_product_query (query : String) : Option String :=
  if query.data.isEmpty || (pyStrip query.data).isEmpty then
    some "No products found matching your search criteria. Please enter a product keyword."
  else if !hasAlnum query.data then
    some "Please enter a valid product keyword."
  else if query.data.length > 100 || pyWordCount query.data > 20 then
    some "Query too long. Please shorten your query."
  else none

/-- Successful payload of `GET /products`. -/
structure ProductsPayload where
  query : String
  products : List SearchResult
  summary : Option String
  total_results : Nat
deriving DecidableEq

/-- Outcome of `GET /products`: a FastAPI parameter-validation rejection
(`top_k` is declared `Query(5, ge=1, le=10)`, so out-of-range values are
refused with a 422 before the handler body runs), a 503 when the vector
store is unavailable, or a JSON payload. -/
inductive ProductsResponse where
  | validationError422
  | serviceUnavailable503
  | ok (payload : ProductsPayload)
deriving DecidableEq

/-- The `GET /products` handler `search_products` (src/api/products.py lines
130-192) with `include_summary` left at its default `true`; `summarize` is
the oracle for `generate_ai_summary`. The trace flag records whether
`vector_store.search` was invoked. -/
def search_products_traced (store? : Option ProductVectorStore)
    (embed : String → List ℚ) (summarize : String → List SearchResult → String)
    (query : String) (top_k : Int) : ProductsResponse × Bool :=
  if top_k < 1 || 10 < top_k then (ProductsResponse.validationError422, false)
  else
    match store? with
    | none => (ProductsResponse.serviceUnavailable503, false)
    | some store =>
      match validate_product_query query with
      | some msg =>
        (ProductsResponse.ok { query := query, products := [], summary := some msg,
                               total_results := 0 }, false)
      | none =>
        let results := store.search embed query top_k.toNat
        if results.isEmpty then
          (ProductsResponse.ok
            { query := query, products := [],
              summary := some "No products found matching your search criteria. Please try different keywords.",
              total_results := 0 }, true)
        else
          (ProductsResponse.ok
            { query := query, products := results,
              summary := some (summarize query results),
              total_results := results.length }, true)

/- ---------------------------------------------------------------------- -/
/- src/api/outlets.py : Text2SQLConverter.preprocess_query                -/
/- ---------------------------------------------------------------------- -/

/-- The Unicode decimal-digit (category Nd) codepoint ranges matched by
Python's `\d` without `re.ASCII` (none is passed in the source), as runs
`(lo, hi)` within which the decimal value of a digit is its codepoint minus
`lo` (Unicode 14.0, the table of CPython 3.11's `unicodedata`; verified
against `re.match(r'\d', c)` for every codepoint). -/
def pyDigitRanges : List (Nat × Nat) :=
  [(0x30, 0x39), (0x660, 0x669), (0x6F0, 0x6F9), (0x7C0, 0x7C9), (0x966, 0x96F), (0x9E6, 0x9EF),
   (0xA66, 0xA6F), (0xAE6, 0xAEF), (0xB66, 0xB6F), (0xBE6, 0xBEF), (0xC66, 0xC6F), (0xCE6, 0xCEF),
   (0xD66, 0xD6F), (0xDE6, 0xDEF), (0xE50, 0xE59), (0xED0, 0xED9), (0xF20, 0xF29), (0x1040, 0x1049),
   (0x1090, 0x1099), (0x17E0, 0x17E9), (0x1810, 0x1819), (0x1946, 0x194F), (0x19D0, 0x19D9), (0x1A80, 0x1A89),
   (0x1A90, 0x1A99), (0x1B50, 0x1B59), (0x1BB0, 0x1BB9), (0x1C40, 0x1C49), (0x1C50, 0x1C59), (0xA620, 0xA629),
   (0xA8D0, 0xA8D9), (0xA900, 0xA909), (0xA9D0, 0xA9D9), (0xA9F0, 0xA9F9), (0xAA50, 0xAA59), (0xABF0, 0xABF9),
   (0xFF10, 0xFF19), (0x104A0, 0x104A9), (0x10D30, 0x10D39), (0x11066, 0x1106F), (0x110F0, 0x110F9), (0x11136, 0x1113F),
   (0x111D0, 0x111D9), (0x112F0, 0x112F9), (0x11450, 0x11459), (0x114D0, 0x114D9), (0x11650, 0x11659), (0x116C0, 0x116C9),
   (0x11730, 0x11739), (0x118E0, 0x118E9), (0x11950, 0x11959), (0x11C50, 0x11C59), (0x11D50, 0x11D59), (0x11DA0, 0x11DA9),
   (0x16A60, 0x16A69), (0x16AC0, 0x16AC9), (0x16B50, 0x16B59), (0x1D7CE, 0x1D7D7), (0x1D7D8, 0x1D7E1), (0x1D7E2, 0x1D7EB),
   (0x1D7EC, 0x1D7F5), (0x1D7F6, 0x1D7FF), (0x1E140, 0x1E149), (0x1E2F0, 0x1E2F9), (0x1E950, 0x1E959), (0x1FBF0, 0x1FBF9)]

/-- Python `\d`: Unicode decimal digits. -/
def pyIsDigit (c : Char) : Bool :=
  pyDigitRanges.any (fun r => r.1 ≤ c.toNat && c.toNat ≤ r.2)

/-- The decimal value of a digit character, as Python's `int()` computes it
for any Unicode decimal digit. Unreachable (0) on non-digits. -/
def pyDigitVal (c : Char) : Nat :=
  match pyDigitRanges.find? (fun r => r.1 ≤ c.toNat && c.toNat ≤ r.2) with
  | some r => c.toNat - r.1
  | none => 0

/-- The codepoint ranges of Python's `\w` word characters without
`re.ASCII`: `str.isalnum()` characters plus the underscore (Unicode 14.0,
the table of CPython 3.11; verified against `re.match(r'\w', c)` for every
codepoint). -/
def pyWordRanges : List (Nat × Nat) :=
  [(0x30, 0x39), (0x41, 0x5A), (0x5F, 0x5F), (0x61, 0x7A), (0xAA, 0xAA), (0xB2, 0xB3),
   (0xB5, 0xB5), (0xB9, 0xBA), (0xBC, 0xBE), (0xC0, 0xD6), (0xD8, 0xF6), (0xF8, 0x2C1),
   (0x2C6, 0x2D1), (0x2E0, 0x2E4), (0x2EC, 0x2EC), (0x2EE, 0x2EE), (0x370, 0x374), (0x376, 0x377),
   (0x37A, 0x37D), (0x37F, 0x37F), (0x386, 0x386), (0x388, 0x38A), (0x38C, 0x38C), (0x38E, 0x3A1),
   (0x3A3, 0x3F5), (0x3F7, 0x481), (0x48A, 0x52F), (0x531, 0x556), (0x559, 0x559), (0x560, 0x588),
   (0x5D0, 0x5EA), (0x5EF, 0x5F2), (0x620, 0x64A), (0x660, 0x669), (0x66E, 0x66F), (0x671, 0x6D3),
   (0x6D5, 0x6D5), (0x6E5, 0x6E6), (0x6EE, 0x6FC), (0x6FF, 0x6FF), (0x710, 0x710), (0x712, 0x72F),
   (0x74D, 0x7A5), (0x7B1, 0x7B1), (0x7C0, 0x7EA), (0x7F4, 0x7F5), (0x7FA, 0x7FA), (0x800, 0x815),
   (0x81A, 0x81A), (0x824, 0x824), (0x828, 0x828), (0x840, 0x858), (0x860, 0x86A), (0x870, 0x887),
   (0x889, 0x88E), (0x8A0, 0x8C9), (0x904, 0x939), (0x93D, 0x93D), (0x950, 0x950), (0x958, 0x961),
   (0x966, 0x96F), (0x971, 0x980), (0x985, 0x98C), (0x98F, 0x990), (0x993, 0x9A8), (0x9AA, 0x9B0),
   (0x9B2, 0x9B2), (0x9B6, 0x9B9), (0x9BD, 0x9BD), (0x9CE, 0x9CE), (0x9DC, 0x9DD), (0x9DF, 0x9E1),
   (0x9E6, 0x9F1), (0x9F4, 0x9F9), (0x9FC, 0x9FC), (0xA05, 0xA0A), (0xA0F, 0xA10), (0xA13, 0xA28),
   (0xA2A, 0xA30), (0xA32, 0xA33), (0xA35, 0xA36), (0xA38, 0xA39), (0xA59, 0xA5C), (0xA5E, 0xA5E),
   (0xA66, 0xA6F), (0xA72, 0xA74), (0xA85, 0xA8D), (0xA8F, 0xA91), (0xA93, 0xAA8), (0xAAA, 0xAB0),
   (0xAB2, 0xAB3), (0xAB5, 0xAB9), (0xABD, 0xABD), (0xAD0, 0xAD0), (0xAE0, 0xAE1), (0xAE6, 0xAEF),
   (0xAF9, 0xAF9), (0xB05, 0xB0C), (0xB0F, 0xB10), (0xB13, 0xB28), (0xB2A, 0xB30), (0xB32, 0xB33),
   (0xB35, 0xB39), (0xB3D, 0xB3D), (0xB5C, 0xB5D), (0xB5F, 0xB61), (0xB66, 0xB6F), (0xB71, 0xB77),
   (0xB83, 0xB83), (0xB85, 0xB8A), (0xB8E, 0xB90), (0xB92, 0xB95), (0xB99, 0xB9A), (0xB9C, 0xB9C),
   (0xB9E, 0xB9F), (0xBA3, 0xBA4), (0xBA8, 0xBAA), (0xBAE, 0xBB9), (0xBD0, 0xBD0), (0xBE6, 0xBF2),
   (0xC05, 0xC0C), (0xC0E, 0xC10), (0xC12, 0xC28), (0xC2A, 0xC39), (0xC3D, 0xC3D), (0xC58, 0xC5A),
   (0xC5D, 0xC5D), (0xC60, 0xC61), (0xC66, 0xC6F), (0xC78, 0xC7E), (0xC80, 0xC80), (0xC85, 0xC8C),
   (0xC8E, 0xC90), (0xC92, 0xCA8), (0xCAA, 0xCB3), (0xCB5, 0xCB9), (0xCBD, 0xCBD), (0xCDD, 0xCDE),
   (0xCE0, 0xCE1), (0xCE6, 0xCEF), (0xCF1, 0xCF2), (0xD04, 0xD0C), (0xD0E, 0xD10), (0xD12, 0xD3A),
   (0xD3D, 0xD3D), (0xD4E, 0xD4E), (0xD54, 0xD56), (0xD58, 0xD61), (0xD66, 0xD78), (0xD7A, 0xD7F),
   (0xD85, 0xD96), (0xD9A, 0xDB1), (0xDB3, 0xDBB), (0xDBD, 0xDBD), (0xDC0, 0xDC6), (0xDE6, 0xDEF),
   (0xE01, 0xE30), (0xE32, 0xE33), (0xE40, 0xE46), (0xE50, 0xE59), (0xE81, 0xE82), (0xE84, 0xE84),
   (0xE86, 0xE8A), (0xE8C, 0xEA3), (0xEA5, 0xEA5), (0xEA7, 0xEB0), (0xEB2, 0xEB3), (0xEBD, 0xEBD),
   (0xEC0, 0xEC4), (0xEC6, 0xEC6), (0xED0, 0xED9), (0xEDC, 0xEDF), (0xF00, 0xF00), (0xF20, 0xF33),
   (0xF40, 0xF47), (0xF49, 0xF6C), (0xF88, 0xF8C), (0x1000, 0x102A), (0x103F, 0x1049), (0x1050, 0x1055),
   (0x105A, 0x105D), (0x1061, 0x1061), (0x1065, 0x1066), (0x106E, 0x1070), (0x1075, 0x1081), (0x108E, 0x108E),
   (0x1090, 0x1099), (0x10A0, 0x10C5), (0x10C7, 0x10C7), (0x10CD, 0x10CD), (0x10D0, 0x10FA), (0x10FC, 0x1248),
   (0x124A, 0x124D), (0x1250, 0x1256), (0x1258, 0x1258), (0x125A, 0x125D), (0x1260, 0x1288), (0x128A, 0x128D),
   (0x1290, 0x12B0), (0x12B2, 0x12B5), (0x12B8, 0x12BE), (0x12C0, 0x12C0), (0x12C2, 0x12C5), (0x12C8, 0x12D6),
   (0x12D8, 0x1310), (0x1312, 0x1315), (0x1318, 0x135A), (0x1369, 0x137C), (0x1380, 0x138F), (0x13A0, 0x13F5),
   (0x13F8, 0x13FD), (0x1401, 0x166C), (0x166F, 0x167F), (0x1681, 0x169A), (0x16A0, 0x16EA), (0x16EE, 0x16F8),
   (0x1700, 0x1711), (0x171F, 0x1731), (0x1740, 0x1751), (0x1760, 0x176C), (0x176E, 0x1770), (0x1780, 0x17B3),
   (0x17D7, 0x17D7), (0x17DC, 0x17DC), (0x17E0, 0x17E9), (0x17F0, 0x17F9), (0x1810, 0x1819), (0x1820, 0x1878),
   (0x1880, 0x1884), (0x1887, 0x18A8), (0x18AA, 0x18AA), (0x18B0, 0x18F5), (0x1900, 0x191E), (0x1946, 0x196D),
   (0x1970, 0x1974), (0x1980, 0x19AB), (0x19B0, 0x19C9), (0x19D0, 0x19DA), (0x1A00, 0x1A16), (0x1A20, 0x1A54),
   (0x1A80, 0x1A89), (0x1A90, 0x1A99), (0x1AA7, 0x1AA7), (0x1B05, 0x1B33), (0x1B45, 0x1B4C), (0x1B50, 0x1B59),
   (0x1B83, 0x1BA0), (0x1BAE, 0x1BE5), (0x1C00, 0x1C23), (0x1C40, 0x1C49), (0x1C4D, 0x1C7D), (0x1C80, 0x1C88),
   (0x1C90, 0x1CBA), (0x1CBD, 0x1CBF), (0x1CE9, 0x1CEC), (0x1CEE, 0x1CF3), (0x1CF5, 0x1CF6), (0x1CFA, 0x1CFA),
   (0x1D00, 0x1DBF), (0x1E00, 0x1F15), (0x1F18, 0x1F1D), (0x1F20, 0x1F45), (0x1F48, 0x1F4D), (0x1F50, 0x1F57),
   (0x1F59, 0x1F59), (0x1F5B, 0x1F5B), (0x1F5D, 0x1F5D), (0x1F5F, 0x1F7D), (0x1F80, 0x1FB4), (0x1FB6, 0x1FBC),
   (0x1FBE, 0x1FBE), (0x1FC2, 0x1FC4), (0x1FC6, 0x1FCC), (0x1FD0, 0x1FD3), (0x1FD6, 0x1FDB), (0x1FE0, 0x1FEC),
   (0x1FF2, 0x1FF4), (0x1FF6, 0x1FFC), (0x2070, 0x2071), (0x2074, 0x2079), (0x207F, 0x2089), (0x2090, 0x209C),
   (0x2102, 0x2102), (0x2107, 0x2107), (0x210A, 0x2113), (0x2115, 0x2115), (0x2119, 0x211D), (0x2124, 0x2124),
   (0x2126, 0x2126), (0x2128, 0x2128), (0x212A, 0x212D), (0x212F, 0x2139), (0x213C, 0x213F), (0x2145, 0x2149),
   (0x214E, 0x214E), (0x2150, 0x2189), (0x2460, 0x249B), (0x24EA, 0x24FF), (0x2776, 0x2793), (0x2C00, 0x2CE4),
   (0x2CEB, 0x2CEE), (0x2CF2, 0x2CF3), (0x2CFD, 0x2CFD), (0x2D00, 0x2D25), (0x2D27, 0x2D27), (0x2D2D, 0x2D2D),
   (0x2D30, 0x2D67), (0x2D6F, 0x2D6F), (0x2D80, 0x2D96), (0x2DA0, 0x2DA6), (0x2DA8, 0x2DAE), (0x2DB0, 0x2DB6),
   (0x2DB8, 0x2DBE), (0x2DC0, 0x2DC6), (0x2DC8, 0x2DCE), (0x2DD0, 0x2DD6), (0x2DD8, 0x2DDE), (0x2E2F, 0x2E2F),
   (0x3005, 0x3007), (0x3021, 0x3029), (0x3031, 0x3035), (0x3038, 0x303C), (0x3041, 0x3096), (0x309D, 0x309F),
   (0x30A1, 0x30FA), (0x30FC, 0x30FF), (0x3105, 0x312F), (0x3131, 0x318E), (0x3192, 0x3195), (0x31A0, 0x31BF),
   (0x31F0, 0x31FF), (0x3220, 0x3229), (0x3248, 0x324F), (0x3251, 0x325F), (0x3280, 0x3289), (0x32B1, 0x32BF),
   (0x3400, 0x4DBF), (0x4E00, 0xA48C), (0xA4D0, 0xA4FD), (0xA500, 0xA60C), (0xA610, 0xA62B), (0xA640, 0xA66E),
   (0xA67F, 0xA69D), (0xA6A0, 0xA6EF), (0xA717, 0xA71F), (0xA722, 0xA788), (0xA78B, 0xA7CA), (0xA7D0, 0xA7D1),
   (0xA7D3, 0xA7D3), (0xA7D5, 0xA7D9), (0xA7F2, 0xA801), (0xA803, 0xA805), (0xA807, 0xA80A), (0xA80C, 0xA822),
   (0xA830, 0xA835), (0xA840, 0xA873), (0xA882, 0xA8B3), (0xA8D0, 0xA8D9), (0xA8F2, 0xA8F7), (0xA8FB, 0xA8FB),
   (0xA8FD, 0xA8FE), (0xA900, 0xA925), (0xA930, 0xA946), (0xA960, 0xA97C), (0xA984, 0xA9B2), (0xA9CF, 0xA9D9),
   (0xA9E0, 0xA9E4), (0xA9E6, 0xA9FE), (0xAA00, 0xAA28), (0xAA40, 0xAA42), (0xAA44, 0xAA4B), (0xAA50, 0xAA59),
   (0xAA60, 0xAA76), (0xAA7A, 0xAA7A), (0xAA7E, 0xAAAF), (0xAAB1, 0xAAB1), (0xAAB5, 0xAAB6), (0xAAB9, 0xAABD),
   (0xAAC0, 0xAAC0), (0xAAC2, 0xAAC2), (0xAADB, 0xAADD), (0xAAE0, 0xAAEA), (0xAAF2, 0xAAF4), (0xAB01, 0xAB06),
   (0xAB09, 0xAB0E), (0xAB11, 0xAB16), (0xAB20, 0xAB26), (0xAB28, 0xAB2E), (0xAB30, 0xAB5A), (0xAB5C, 0xAB69),
   (0xAB70, 0xABE2), (0xABF0, 0xABF9), (0xAC00, 0xD7A3), (0xD7B0, 0xD7C6), (0xD7CB, 0xD7FB), (0xF900, 0xFA6D),
   (0xFA70, 0xFAD9), (0xFB00, 0xFB06), (0xFB13, 0xFB17), (0xFB1D, 0xFB1D), (0xFB1F, 0xFB28), (0xFB2A, 0xFB36),
   (0xFB38, 0xFB3C), (0xFB3E, 0xFB3E), (0xFB40, 0xFB41), (0xFB43, 0xFB44), (0xFB46, 0xFBB1), (0xFBD3, 0xFD3D),
   (0xFD50, 0xFD8F), (0xFD92, 0xFDC7), (0xFDF0, 0xFDFB), (0xFE70, 0xFE74), (0xFE76, 0xFEFC), (0xFF10, 0xFF19),
   (0xFF21, 0xFF3A), (0xFF41, 0xFF5A), (0xFF66, 0xFFBE), (0xFFC2, 0xFFC7), (0xFFCA, 0xFFCF), (0xFFD2, 0xFFD7),
   (0xFFDA, 0xFFDC), (0x10000, 0x1000B), (0x1000D, 0x10026), (0x10028, 0x1003A), (0x1003C, 0x1003D), (0x1003F, 0x1004D),
   (0x10050, 0x1005D), (0x10080, 0x100FA), (0x10107, 0x10133), (0x10140, 0x10178), (0x1018A, 0x1018B), (0x10280, 0x1029C),
   (0x102A0, 0x102D0), (0x102E1, 0x102FB), (0x10300, 0x10323), (0x1032D, 0x1034A), (0x10350, 0x10375), (0x10380, 0x1039D),
   (0x103A0, 0x103C3), (0x103C8, 0x103CF), (0x103D1, 0x103D5), (0x10400, 0x1049D), (0x104A0, 0x104A9), (0x104B0, 0x104D3),
   (0x104D8, 0x104FB), (0x10500, 0x10527), (0x10530, 0x10563), (0x10570, 0x1057A), (0x1057C, 0x1058A), (0x1058C, 0x10592),
   (0x10594, 0x10595), (0x10597, 0x105A1), (0x105A3, 0x105B1), (0x105B3, 0x105B9), (0x105BB, 0x105BC), (0x10600, 0x10736),
   (0x10740, 0x10755), (0x10760, 0x10767), (0x10780, 0x10785), (0x10787, 0x107B0), (0x107B2, 0x107BA), (0x10800, 0x10805),
   (0x10808, 0x10808), (0x1080A, 0x10835), (0x10837, 0x10838), (0x1083C, 0x1083C), (0x1083F, 0x10855), (0x10858, 0x10876),
   (0x10879, 0x1089E), (0x108A7, 0x108AF), (0x108E0, 0x108F2), (0x108F4, 0x108F5), (0x108FB, 0x1091B), (0x10920, 0x10939),
   (0x10980, 0x109B7), (0x109BC, 0x109CF), (0x109D2, 0x10A00), (0x10A10, 0x10A13), (0x10A15, 0x10A17), (0x10A19, 0x10A35),
   (0x10A40, 0x10A48), (0x10A60, 0x10A7E), (0x10A80, 0x10A9F), (0x10AC0, 0x10AC7), (0x10AC9, 0x10AE4), (0x10AEB, 0x10AEF),
   (0x10B00, 0x10B35), (0x10B40, 0x10B55), (0x10B58, 0x10B72), (0x10B78, 0x10B91), (0x10BA9, 0x10BAF), (0x10C00, 0x10C48),
   (0x10C80, 0x10CB2), (0x10CC0, 0x10CF2), (0x10CFA, 0x10D23), (0x10D30, 0x10D39), (0x10E60, 0x10E7E), (0x10E80, 0x10EA9),
   (0x10EB0, 0x10EB1), (0x10F00, 0x10F27), (0x10F30, 0x10F45), (0x10F51, 0x10F54), (0x10F70, 0x10F81), (0x10FB0, 0x10FCB),
   (0x10FE0, 0x10FF6), (0x11003, 0x11037), (0x11052, 0x1106F), (0x11071, 0x11072), (0x11075, 0x11075), (0x11083, 0x110AF),
   (0x110D0, 0x110E8), (0x110F0, 0x110F9), (0x11103, 0x11126), (0x11136, 0x1113F), (0x11144, 0x11144), (0x11147, 0x11147),
   (0x11150, 0x11172), (0x11176, 0x11176), (0x11183, 0x111B2), (0x111C1, 0x111C4), (0x111D0, 0x111DA), (0x111DC, 0x111DC),
   (0x111E1, 0x111F4), (0x11200, 0x11211), (0x11213, 0x1122B), (0x11280, 0x11286), (0x11288, 0x11288), (0x1128A, 0x1128D),
   (0x1128F, 0x1129D), (0x1129F, 0x112A8), (0x112B0, 0x112DE), (0x112F0, 0x112F9), (0x11305, 0x1130C), (0x1130F, 0x11310),
   (0x11313, 0x11328), (0x1132A, 0x11330), (0x11332, 0x11333), (0x11335, 0x11339), (0x1133D, 0x1133D), (0x11350, 0x11350),
   (0x1135D, 0x11361), (0x11400, 0x11434), (0x11447, 0x1144A), (0x11450, 0x11459), (0x1145F, 0x11461), (0x11480, 0x114AF),
   (0x114C4, 0x114C5), (0x114C7, 0x114C7), (0x114D0, 0x114D9), (0x11580, 0x115AE), (0x115D8, 0x115DB), (0x11600, 0x1162F),
   (0x11644, 0x11644), (0x11650, 0x11659), (0x11680, 0x116AA), (0x116B8, 0x116B8), (0x116C0, 0x116C9), (0x11700, 0x1171A),
   (0x11730, 0x1173B), (0x11740, 0x11746), (0x11800, 0x1182B), (0x118A0, 0x118F2), (0x118FF, 0x11906), (0x11909, 0x11909),
   (0x1190C, 0x11913), (0x11915, 0x11916), (0x11918, 0x1192F), (0x1193F, 0x1193F), (0x11941, 0x11941), (0x11950, 0x11959),
   (0x119A0, 0x119A7), (0x119AA, 0x119D0), (0x119E1, 0x119E1), (0x119E3, 0x119E3), (0x11A00, 0x11A00), (0x11A0B, 0x11A32),
   (0x11A3A, 0x11A3A), (0x11A50, 0x11A50), (0x11A5C, 0x11A89), (0x11A9D, 0x11A9D), (0x11AB0, 0x11AF8), (0x11C00, 0x11C08),
   (0x11C0A, 0x11C2E), (0x11C40, 0x11C40), (0x11C50, 0x11C6C), (0x11C72, 0x11C8F), (0x11D00, 0x11D06), (0x11D08, 0x11D09),
   (0x11D0B, 0x11D30), (0x11D46, 0x11D46), (0x11D50, 0x11D59), (0x11D60, 0x11D65), (0x11D67, 0x11D68), (0x11D6A, 0x11D89),
   (0x11D98, 0x11D98), (0x11DA0, 0x11DA9), (0x11EE0, 0x11EF2), (0x11FB0, 0x11FB0), (0x11FC0, 0x11FD4), (0x12000, 0x12399),
   (0x12400, 0x1246E), (0x12480, 0x12543), (0x12F90, 0x12FF0), (0x13000, 0x1342E), (0x14400, 0x14646), (0x16800, 0x16A38),
   (0x16A40, 0x16A5E), (0x16A60, 0x16A69), (0x16A70, 0x16ABE), (0x16AC0, 0x16AC9), (0x16AD0, 0x16AED), (0x16B00, 0x16B2F),
   (0x16B40, 0x16B43), (0x16B50, 0x16B59), (0x16B5B, 0x16B61), (0x16B63, 0x16B77), (0x16B7D, 0x16B8F), (0x16E40, 0x16E96),
   (0x16F00, 0x16F4A), (0x16F50, 0x16F50), (0x16F93, 0x16F9F), (0x16FE0, 0x16FE1), (0x16FE3, 0x16FE3), (0x17000, 0x187F7),
   (0x18800, 0x18CD5), (0x18D00, 0x18D08), (0x1AFF0, 0x1AFF3), (0x1AFF5, 0x1AFFB), (0x1AFFD, 0x1AFFE), (0x1B000, 0x1B122),
   (0x1B150, 0x1B152), (0x1B164, 0x1B167), (0x1B170, 0x1B2FB), (0x1BC00, 0x1BC6A), (0x1BC70, 0x1BC7C), (0x1BC80, 0x1BC88),
   (0x1BC90, 0x1BC99), (0x1D2E0, 0x1D2F3), (0x1D360, 0x1D378), (0x1D400, 0x1D454), (0x1D456, 0x1D49C), (0x1D49E, 0x1D49F),
   (0x1D4A2, 0x1D4A2), (0x1D4A5, 0x1D4A6), (0x1D4A9, 0x1D4AC), (0x1D4AE, 0x1D4B9), (0x1D4BB, 0x1D4BB), (0x1D4BD, 0x1D4C3),
   (0x1D4C5, 0x1D505), (0x1D507, 0x1D50A), (0x1D50D, 0x1D514), (0x1D516, 0x1D51C), (0x1D51E, 0x1D539), (0x1D53B, 0x1D53E),
   (0x1D540, 0x1D544), (0x1D546, 0x1D546), (0x1D54A, 0x1D550), (0x1D552, 0x1D6A5), (0x1D6A8, 0x1D6C0), (0x1D6C2, 0x1D6DA),
   (0x1D6DC, 0x1D6FA), (0x1D6FC, 0x1D714), (0x1D716, 0x1D734), (0x1D736, 0x1D74E), (0x1D750, 0x1D76E), (0x1D770, 0x1D788),
   (0x1D78A, 0x1D7A8), (0x1D7AA, 0x1D7C2), (0x1D7C4, 0x1D7CB), (0x1D7CE, 0x1D7FF), (0x1DF00, 0x1DF1E), (0x1E100, 0x1E12C),
   (0x1E137, 0x1E13D), (0x1E140, 0x1E149), (0x1E14E, 0x1E14E), (0x1E290, 0x1E2AD), (0x1E2C0, 0x1E2EB), (0x1E2F0, 0x1E2F9),
   (0x1E7E0, 0x1E7E6), (0x1E7E8, 0x1E7EB), (0x1E7ED, 0x1E7EE), (0x1E7F0, 0x1E7FE), (0x1E800, 0x1E8C4), (0x1E8C7, 0x1E8CF),
   (0x1E900, 0x1E943), (0x1E94B, 0x1E94B), (0x1E950, 0x1E959), (0x1EC71, 0x1ECAB), (0x1ECAD, 0x1ECAF), (0x1ECB1, 0x1ECB4),
   (0x1ED01, 0x1ED2D), (0x1ED2F, 0x1ED3D), (0x1EE00, 0x1EE03), (0x1EE05, 0x1EE1F), (0x1EE21, 0x1EE22), (0x1EE24, 0x1EE24),
   (0x1EE27, 0x1EE27), (0x1EE29, 0x1EE32), (0x1EE34, 0x1EE37), (0x1EE39, 0x1EE39), (0x1EE3B, 0x1EE3B), (0x1EE42, 0x1EE42),
   (0x1EE47, 0x1EE47), (0x1EE49, 0x1EE49), (0x1EE4B, 0x1EE4B), (0x1EE4D, 0x1EE4F), (0x1EE51, 0x1EE52), (0x1EE54, 0x1EE54),
   (0x1EE57, 0x1EE57), (0x1EE59, 0x1EE59), (0x1EE5B, 0x1EE5B), (0x1EE5D, 0x1EE5D), (0x1EE5F, 0x1EE5F), (0x1EE61, 0x1EE62),
   (0x1EE64, 0x1EE64), (0x1EE67, 0x1EE6A), (0x1EE6C, 0x1EE72), (0x1EE74, 0x1EE77), (0x1EE79, 0x1EE7C), (0x1EE7E, 0x1EE7E),
   (0x1EE80, 0x1EE89), (0x1EE8B, 0x1EE9B), (0x1EEA1, 0x1EEA3), (0x1EEA5, 0x1EEA9), (0x1EEAB, 0x1EEBB), (0x1F100, 0x1F10C),
   (0x1FBF0, 0x1FBF9), (0x20000, 0x2A6DF), (0x2A700, 0x2B738), (0x2B740, 0x2B81D), (0x2B820, 0x2CEA1), (0x2CEB0, 0x2EBE0),
   (0x2F800, 0x2FA1D), (0x30000, 0x3134A)]

/-- Python `\w` word characters (full Unicode, as used by the `\b`
boundaries of the time pattern). -/
def isWordChar (c : Char) : Bool :=
  pyWordRanges.any (fun r => r.1 ≤ c.toNat && c.toNat ≤ r.2)

/-- Greedy `\d{1,2}`: one or two leading Unicode decimal digits. Returns the
numeric value (per `int()`, also for non-ASCII digits), the consumed
characters, and the rest. Greediness without backtracking is faithful here
because in the time pattern nothing that follows the digit group can begin
with a digit, so giving a digit back can never turn a failure into a
success. -/
def takeDigits12 (l : List Char) : Option (Nat × List Char × List Char) :=
  match l with
  | [] => none
  | [c1] => if pyIsDigit c1 then some (pyDigitVal c1, [c1], []) else none
  | c1 :: c2 :: rest =>
    if pyIsDigit c1 then
      if pyIsDigit c2 then
        some (pyDigitVal c1 * 10 + pyDigitVal c2, [c1, c2], rest)
      else some (pyDigitVal c1, [c1], c2 :: rest)
    else none

/-- The optional minutes group `(?::(\d{2}))?` over Unicode decimal digits:
when a colon followed by two digits is present the group participates (and
`:` can begin nothing else in the pattern, so not taking it could never
succeed either); otherwise the group is skipped. Returns (minutes,
consumed, rest). -/
def matchColonMM (l : List Char) : Option Nat × List Char × List Char :=
  match l with
  | ':' :: a :: b :: rest =>
    if pyIsDigit a && pyIsDigit b then
      (some (pyDigitVal a * 10 + pyDigitVal b), [':', a, b], rest)
    else (none, [], l)
  | _ => (none, [], l)

/-- Greedy `\s*` split into (consumed, rest); no backtracking is needed since
`[AP]` characters are never whitespace. -/
def takeSpaces (l : List Char) : List Char × List Char :=
  (l.takeWhile isPySpace, l.dropWhile isPySpace)

/-- `[AP]M` (outer pattern) and `(AM|PM)` (inner pattern) under
`re.IGNORECASE`: both accept exactly A/a/P/p followed by M/m. Returns
(is PM, consumed, rest). -/
def matchPeriod (l : List Char) : Option (Bool × List Char × List Char) :=
  match l with
  | p :: m :: rest =>
    if (p = 'A' || p = 'a' || p = 'P' || p = 'p') && (m = 'M' || m = 'm') then
      some (p = 'P' || p = 'p', [p, m], rest)
    else none
  | _ => none

/-- Match `\d{1,2}(?::\d{2})?\s*[AP]M` at the head of the list, returning the
parsed (hour, minutes, is PM) components, the consumed text and the rest. -/
def matchTimeCore (l : List Char) :
    Option ((Nat × Option Nat × Bool) × List Char × List Char) :=
  match takeDigits12 l with
  | none => none
  | some (h, c1, r1) =>
    let mm := matchColonMM r1
    let sp := takeSpaces mm.2.2
    match matchPeriod sp.2 with
    | none => none
    | some (pm, c3, r3) =>
      some ((h, mm.1, pm), c1 ++ mm.2.1 ++ sp.1 ++ c3, r3)

/-- Match the full outer pattern `\b\d{1,2}(?::\d{2})?\s*[AP]M\b` at the head
of the list: the leading `\b` is checked by the caller against the previous
character (the pattern starts with a digit, a word character), and the
trailing `\b` requires the next original character to be absent or a
non-word character. When the trailing boundary fails no backtracking can
save the match (shorter digit or space choices fail immediately), so the
position simply does not match. -/
def matchTimeAt (l : List Char) :
    Option ((Nat × Option Nat × Bool) × List Char × List Char) :=
  match matchTimeCore l with
  | none => none
  | some (parts, consumed, rest) =>
    match rest with
    | [] => some (parts, consumed, rest)
    | c :: _ => if isWordChar c then none else some (parts, consumed, rest)

/-- `re.search` of the inner pattern `(\d{1,2})(?::(\d{2}))?\s*(AM|PM)` (no
word boundaries) inside `convert_time`: try each position left to right. -/
def innerSearchTime : List Char → Option (Nat × Option Nat × Bool)
  | [] => none
  | c :: rest =>
    match matchTimeCore (c :: rest) with
    | some (parts, _, _) => some parts
    | none => innerSearchTime rest

/-- Python `f"{n:02d}"` for 0 ≤ n < 1000 (hours here never exceed 99 + 12 and
minutes never exceed 99, so three digits suffice). -/
def format02 (n : Nat) : List Char :=
  if n < 10 then ['0', Char.ofNat (48 + n)]
  else if n < 100 then [Char.ofNat (48 + n / 10), Char.ofNat (48 + n % 10)]
  else [Char.ofNat (48 + n / 100), Char.ofNat (48 + n / 10 % 10), Char.ofNat (48 + n % 10)]

/-- The 12-hour to 24-hour conversion arithmetic of `convert_time`
(src/api/outlets.py lines 97-103): AM with hour 12 becomes 0; PM with hour
other than 12 adds 12. -/
def to24 (hour : Nat) (pm : Bool) : Nat :=
  if pm then (if hour ≠ 12 then hour + 12 else hour) else (if hour = 12 then 0 else hour)

/-- `convert_time` (src/api/outlets.py lines 88-105): re-parse the matched
text with the inner pattern and format `f"{hour:02d}:{minute:02d}"`; absent
minutes count as 0. If the inner search failed the text would be returned
unchanged (unreachable for outer-matched text). -/
def convert_time (timeStr : List Char) : List Char :=
  match innerSearchTime timeStr with
  | some (h, m, pm) => format02 (to24 h pm) ++ ':' :: format02 (m.getD 0)
  | none => timeStr

/-- Whether a match may start here: the leading `\b` holds (the pattern's
first character is a digit, so the previous character must be absent or a
non-word character). -/
def boundaryBeforeOk : Option Char → Bool
  | none => true
  | some c => !isWordChar c

/-- The scanning loop of `re.sub(time_pattern, convert_time, query,
flags=re.IGNORECASE)`: at each position whose left boundary holds, attempt
the anchored match; on success emit the converted replacement and continue
after the match (the last matched character remaining the left context);
otherwise copy one character. Fuel only serves termination; `length` is
always enough because every step consumes at least one character. -/
def subTimeAux : Nat → Option Char → List Char → List Char
  | 0, _, l => l
  | fuel + 1, prev, l =>
    match l with
    | [] => []
    | c :: rest =>
      if boundaryBeforeOk prev then
        match matchTimeAt (c :: rest) with
        | some (_, consumed, rest2) =>
          convert_time consumed ++ subTimeAux fuel (some (consumed.getLastD c)) rest2
        | none => c :: subTimeAux fuel (some c) rest
      else c :: subTimeAux fuel (some c) rest

/-- `Text2SQLConverter.preprocess_query` (src/api/outlets.py lines 86-109):
rewrite every occurrence of the 12-hour time pattern via `convert_time`. -/
def preprocess_query (query : String) : String :=
  String.mk (subTimeAux query.data.length none query.data)

/-- Whether the query contains a substring matching the outer time pattern
(including both word boundaries): the scanning loop finds a match at some
position. -/
def hasTimeMatchAux : Option Char → List Char → Bool
  | _, [] => false
  | prev, c :: rest =>
    (boundaryBeforeOk prev && (matchTimeAt (c :: rest)).isSome)
      || hasTimeMatchAux (some c) rest

/-- Whether the query contains any 12-hour time-of-day expression. -/
def containsTimePattern (query : String) : Bool :=
  hasTimeMatchAux none query.data

/- ---------------------------------------------------------------------- -/
/- src/api/outlets.py : convert_to_sql, validation and the endpoint       -/
/- ---------------------------------------------------------------------- -/

/-- Python `s.replace(pat, rep)` for a non-empty pattern: replace all
non-overlapping occurrences left to right. Fuel only serves termination. -/
def pyReplaceAux : Nat → List Char → List Char → List Char → List Char
  | 0, s, _, _ => s
  | fuel + 1, s, pat, rep =>
    match s with
    | [] => []
    | c :: rest =>
      if pat.isPrefixOf s then rep ++ pyReplaceAux fuel (s.drop pat.length) pat rep
      else c :: pyReplaceAux fuel rest pat rep

/-- Python `s.replace(pat, rep)` (patterns used here are non-empty). -/
def pyReplace (s pat rep : List Char) : List Char :=
  pyReplaceAux s.length s pat rep

/-- Python `s.lower().find(pat)`-style search: index of the first occurrence
of `pat` in `s`, or `none` (Python -1). -/
def findSub : List Char → List Char → Option Nat
  | _, [] => some 0
  | [], _ => none
  | c :: rest, pat =>
    if pat.isPrefixOf (c :: rest) then some 0
    else (findSub rest pat).map (fun i => i + 1)

/-- `Text2SQLConverter.convert_to_sql` (src/api/outlets.py lines 31-84): the
generator oracle `gen` stands for the Gemini call on the prompt built
around the preprocessed query (the fixed prompt template is absorbed into
the oracle). Its output is stripped, fenced-code markers are removed, the
text from the first case-insensitive `select` on is kept (absence is the
500 "no SELECT" failure), and a terminating `;` is appended when missing.
An empty generation is the 500 "failed to generate" failure. No validation
of any kind is applied to the generated text. -/
def convert_to_sql (gen : String → String) (natural_query : String) :
    Except String (List Char) :=
  let processed := preprocess_query natural_query
  let raw := (gen processed).data
  if raw.isEmpty then Except.error "Failed to generate SQL query"
  else
    let cleaned :=
      pyStrip (pyReplace (pyReplace (pyStrip raw) "```sql".data []) "```".data [])
    match findSub (cleaned.map Char.toLower) "select".data with
    | none => Except.error "No SELECT statement found in generated SQL."
    | some i =>
      let q := cleaned.drop i
      Except.ok (if q.getLast? = some ';' then q else q ++ [';'])

/-- `validate_outlet_query` (src/api/outlets.py lines 132-142): reject
empty/whitespace input, input without alphanumeric content, input over 100
characters or 20 words, and input whose lowering contains one of the listed
substrings. Note the word keywords carry a trailing space. -/
def validate_outlet_query (query : String) : Option String :=
  if query.data.isEmpty || (pyStrip query.data).isEmpty then
    some "Please specify a location, area, or outlet name to search for."
  else if !hasAlnum query.data then
    some "Please enter a valid location, area, or outlet name."
  else if query.data.length > 100 || pyWordCount query.data > 20 then
    some "Query too long. Please shorten your query."
  else if [";".data, "--".data, "drop ".data, "delete ".data, "insert ".data,
           "update ".data, "alter ".data, "truncate ".data].any
            (fun kw => decide (kw <:+: query.data.map Char.toLower)) then
    some "Invalid or potentially unsafe query. Please rephrase your request."
  else none

/-- One database row, kept opaque (column name, value) pairs. -/
def OutletRow : Type := List (String × String)

/-- Successful payload of `GET /outlets`. -/
structure OutletsPayload where
  query : String
  sql : Option String
  results : List OutletRow
  count : Nat
  message : Option String

/-- Outcome of `GET /outlets`: either a JSON payload or an HTTPException. -/
inductive OutletsResponse where
  | ok (payload : OutletsPayload)
  | httpError (code : Nat) (detail : String)

/-- The `GET /outlets` handler `query_outlets` (src/api/outlets.py lines
150-179) with a trace recording whether the generator was invoked and which
SQL string, if any, was handed to `execute_sql_query` (the database itself
is the oracle `db`). The input validator runs on the natural-language
query; the generated SQL is executed as produced. -/
def query_outlets_traced (gen : String → String) (db : String → List OutletRow)
    (query : String) : OutletsResponse × Bool × Option String :=
  match validate_outlet_query query with
  | some msg =>
    (OutletsResponse.ok { query := query, sql := none, results := [], count := 0,
                          message := some msg }, false, none)
  | none =>
    match convert_to_sql gen query with
    | Except.error detail => (OutletsResponse.httpError 500 detail, true, none)
    | Except.ok sqlChars =>
      let sql := String.mk sqlChars
      (OutletsResponse.ok { query := query, sql := some sql, results := db sql,
                            count := (db sql).length, message := none }, true, some sql)

/- ---------------------------------------------------------------------- -/
/- Statement-side renderings used to quantify over 12-hour expressions    -/
/- ---------------------------------------------------------------------- -/

/-- The ASCII digit character for a value 0-9. -/
def digitCharOf (d : Nat) : Char := Char.ofNat (48 + d)

/-- Decimal rendering of an hour 1-12 as it appears in a query. -/
def hourChars (h : Nat) : List Char :=
  if h < 10 then [digitCharOf h] else [digitCharOf (h / 10), digitCharOf (h % 10)]

/-- The AM/PM marker with independently chosen letter cases. -/
def periodChars (pm lower1 lower2 : Bool) : List Char :=
  [if pm then (if lower1 then 'p' else 'P') else (if lower1 then 'a' else 'A'),
   if lower2 then 'm' else 'M']

/-- The canonical 24-hour form the specification claims for a 12-hour
expression: 12 AM becomes hour 00, 12 PM stays 12, any other PM hour gains
12, any other AM hour is unchanged; the hour is zero-padded to two digits
and absent minutes render as `00`. -/
def claimedCanonical (h : Nat) (mins : Option (Nat × Nat)) (pm : Bool) : List Char :=
  let h24 := if pm then (if h = 12 then 12 else h + 12) else (if h = 12 then 0 else h)
  [digitCharOf (h24 / 10), digitCharOf (h24 % 10)] ++
    ':' :: (match mins with
            | some ab => [digitCharOf ab.1, digitCharOf ab.2]
            | none => ['0', '0'])

/-- Decimal rendering of an hour, optionally zero-padded — both forms are
matched by `\d{1,2}` (padding is only meaningful for hours up to 9). -/
def hourRender (pad : Bool) (h : Nat) : List Char :=
  if pad then ['0', digitCharOf h] else hourChars h

/-- One 12-hour time-of-day expression as it occurs inside a query: an hour
(optionally zero-padded), optional `:MM` minutes given by their two digit
values, a whitespace run, and the AM/PM marker with chosen letter cases. -/
structure TimeOcc where
  pad : Bool
  hour : Nat
  mins : Option (Nat × Nat)
  ws : List Char
  pm : Bool
  lower1 : Bool
  lower2 : Bool

/-- The text of one occurrence. -/
def renderOcc (t : TimeOcc) : List Char :=
  hourRender t.pad t.hour ++
    (match t.mins with
     | some ab => [':', digitCharOf ab.1, digitCharOf ab.2]
     | none => []) ++ t.ws ++ periodChars t.pm t.lower1 t.lower2

/-- Well-formedness of one occurrence: hour 1-12 (at most 9 when padded),
digit values for the minutes, and only whitespace in the `\s*` run. -/
def occWF (t : TimeOcc) : Bool :=
  (1 ≤ t.hour && t.hour ≤ 12) && (!t.pad || t.hour ≤ 9) &&
    t.mins.all (fun ab => ab.1 ≤ 9 && ab.2 ≤ 9) && t.ws.all isPySpace

/-- A query assembled from alternating time occurrences and gap texts (after
a leading gap handled separately). -/
def renderSegs : List (TimeOcc × List Char) → List Char
  | [] => []
  | (t, g) :: rest => renderOcc t ++ g ++ renderSegs rest

/-- The same query with every occurrence replaced by the canonical 24-hour
form the specification claims. -/
def rewriteSegs : List (TimeOcc × List Char) → List Char
  | [] => []
  | (t, g) :: rest => claimedCanonical t.hour t.mins t.pm ++ g ++ rewriteSegs rest

/-- Side conditions under which the pattern matches exactly the rendered
occurrences: each occurrence is well formed; each gap contains no Unicode
digit (the pattern starts with `\d`, so no match can begin inside such a
gap); each gap starts with a non-word character when non-empty (the
trailing `\b` of the preceding occurrence — an empty gap is fine only at
the end of the query); and when another occurrence follows, the gap is
non-empty and ends with a non-word character (the leading `\b` of the next
occurrence). -/
def segsWF : List (TimeOcc × List Char) → Bool
  | [] => true
  | (t, g) :: rest =>
    occWF t && g.all (fun c => !pyIsDigit c) &&
      g.head?.all (fun c => !isWordChar c) &&
      (match rest with
       | [] => true
       | _ :: _ => !g.isEmpty && g.getLast?.all (fun c => !isWordChar c)) &&
      segsWF rest

/- ---------------------------------------------------------------------- -/
/- Theorems                                                               -/
/- ---------------------------------------------------------------------- -/

/-- C9: for every session id and prior store state, clearing and then
getting-or-creating yields the empty transcript; clearing twice equals
clearing once; clearing an absent id is a no-op (and raises nothing, the
operation being total); and clearing leaves every other session's
transcript untouched. -/
theorem C9_clear_then_get (store : SessionStore) (sid : String) :
    (get_session_history (clear_session_history store sid) sid).1 = [] ∧
    clear_session_history (clear_session_history store sid) sid
      = clear_session_history store sid ∧
    (store sid = none → clear_session_history store sid = store) ∧
    (∀ k, k ≠ sid → clear_session_history store sid k = store k) := by
  refine ⟨?_, ?_, ?_, ?_⟩
  · simp [get_session_history, clear_session_history]
  · funext k
    by_cases hk : k = sid <;> simp [clear_session_history, hk]
  · intro habs
    funext k
    by_cases hk : k = sid <;> simp [clear_session_history, hk, habs]
  · intro k hk
    simp [clear_session_history, hk]

/-- Witness for C9 at a concrete store and ids. -/
theorem C9_clear_then_get_witness :
    clear_session_history (fun _ => none) "alpha" = (fun _ => none) ∧
    clear_session_history (fun _ => none) "alpha" "beta" = none :=
  ⟨(C9_clear_then_get (fun _ => none) "alpha").2.2.1 rfl,
   (C9_clear_then_get (fun _ => none) "alpha").2.2.2 "beta" (by decide)⟩

/-- C1: every expression containing a character outside the whitelist of
digits, whitespace, parentheses, `+ - * /` and the decimal point is turned
into the invalid-characters failure payload before evaluation, and the
asteval evaluator is never reached. -/
theorem C1_whitelist_rejection (e : String)
    (h : ∃ c ∈ e.data, allowedCalcChar c = false) :
    calculate_get e =
      { expression := e, result := CalcResult.text "Error", success := false,
        error := some "Invalid characters in expression" } ∧
    (calculate_get_traced e).2 = false := by
  have hw : calcWhitelist e.data = false := by
    obtain ⟨c, hc, hca⟩ := h
    unfold calcWhitelist
    have hall : e.data.all allowedCalcChar = false := by
      rw [List.all_eq_false]
      exact ⟨c, hc, by simp [hca]⟩
    simp [hall]
  constructor <;> simp [calculate_get, calculate_get_traced, hw]

/-- Witness for C1 at the code-injection expression from the specification. -/
theorem C1_whitelist_rejection_witness :
    calculate_get "__import__(os).system(x)" =
      { expression := "__import__(os).system(x)", result := CalcResult.text "Error",
        success := false, error := some "Invalid characters in expression" } ∧
    (calculate_get_traced "__import__(os).system(x)").2 = false :=
  ⟨(C1_whitelist_rejection "__import__(os).system(x)" (by decide)).1,
   (C1_whitelist_rejection "__import__(os).system(x)" (by decide)).2⟩

set_option maxRecDepth 100000 in
/-- C7 counterexample: a 121-character expression (over every length/token
bound the repository mentions: 100 characters, 20 tokens) passes the
whitelist, reaches the evaluator and succeeds, so no oversized-expression
rejection exists in the calculator operation. -/
theorem C7_counterexample :
    (String.join (List.replicate 60 "1+") ++ "1").length = 121 ∧
    (calculate_get (String.join (List.replicate 60 "1+") ++ "1")).success = true ∧
    (calculate_get_traced (String.join (List.replicate 60 "1+") ++ "1")).2 = true := by
  refine ⟨by decide, by decide, by decide⟩

/-- C7 as amended: the calculator applies no length or token bound; every
expression passing the character whitelist is handed to the evaluator
whatever its length. -/
theorem C7_no_length_bound (e : String) (h : calcWhitelist e.data = true) :
    (calculate_get_traced e).2 = true := by
  unfold calculate_get_traced
  rw [if_pos h]
  cases evalArith e.data <;> simp

set_option maxRecDepth 100000 in
/-- Witness for C7's amended statement. -/
theorem C7_no_length_bound_witness :
    (calculate_get_traced (String.join (List.replicate 60 "1+") ++ "1")).2 = true :=
  C7_no_length_bound (String.join (List.replicate 60 "1+") ++ "1") (by decide)

/-- C8: whenever evaluation of a whitelisted expression fails the endpoint
returns success=false with the recorded error message rather than an
unhandled fault, and concretely `1/0` yields success=false with an error
message that contains "division by zero". -/
theorem C8_evaluation_failure :
    (∀ (e : String) (msg : String), calcWhitelist e.data = true →
      evalArith e.data = Except.error msg →
      calculate_get e =
        { expression := e, result := CalcResult.text "Error", success := false,
          error := some msg }) ∧
    (calculate_get "1/0").success = false ∧
    (calculate_get "1/0").error = some "ZeroDivisionError: division by zero" ∧
    "division by zero".data <:+: "ZeroDivisionError: division by zero".data := by
  refine ⟨?_, by decide, by decide, by decide⟩
  intro e msg hw he
  unfold calculate_get calculate_get_traced
  rw [if_pos hw, he]

/-- Witness for C8 at the expression `1/0`. -/
theorem C8_evaluation_failure_witness :
    calculate_get "1/0" =
      { expression := "1/0", result := CalcResult.text "Error", success := false,
        error := some "ZeroDivisionError: division by zero" } :=
  C8_evaluation_failure.1 "1/0" "ZeroDivisionError: division by zero"
    (by decide) (by rfl)

/-- C2 counterexample: a generated query consisting of two statements, the
second a DROP, sails through the pipeline untouched — `query_outlets` hands
exactly that string to `execute_sql_query`, so no validation check runs on
the generator's output (the only validation runs on the user's input before
generation). -/
theorem C2_counterexample :
    (query_outlets_traced (fun _ => "SELECT id FROM outlets; DROP TABLE outlets;")
        (fun _ => []) "outlets in KL").2.2
      = some "SELECT id FROM outlets; DROP TABLE outlets;" ∧
    "drop ".data <:+: "SELECT id FROM outlets; DROP TABLE outlets;".data.map Char.toLower ∧
    "SELECT id FROM outlets; DROP TABLE outlets;".data.count ';' = 2 := by
  refine ⟨by decide, by decide, by decide⟩

/-- C2 as amended: the keyword/statement validation runs on the user's
natural-language input before generation — when it fires, the generator and
the database are never invoked and a structured message is returned — while
the generated query itself is executed without any post-generation check. -/
theorem C2_validation_on_input_only (gen : String → String)
    (db : String → List OutletRow) (q msg : String)
    (h : validate_outlet_query q = some msg) :
    query_outlets_traced gen db q =
      (OutletsResponse.ok { query := q, sql := none, results := [], count := 0,
                            message := some msg }, false, none) := by
  unfold query_outlets_traced
  rw [h]

/-- Witness for C2's amended statement at a keyword-bearing user input. -/
theorem C2_validation_on_input_only_witness :
    query_outlets_traced (fun _ => "SELECT name FROM outlets LIMIT 5;") (fun _ => [])
        "outlets; drop" =
      (OutletsResponse.ok { query := "outlets; drop", sql := none, results := [],
                            count := 0,
                            message := some "Invalid or potentially unsafe query. Please rephrase your request." },
       false, none) :=
  C2_validation_on_input_only _ _ _ _ (by decide)

/-- C6 counterexample: `validate_product_query` has no keyword check at all,
so "drop table products" passes it and the vector-search backend is
invoked; and `validate_outlet_query` only catches word keywords followed by
a space, so the bare input "drop" passes it too. -/
theorem C6_counterexample :
    validate_product_query "drop table products" = none ∧
    validate_outlet_query "drop" = none ∧
    (search_products_traced (some ⟨[[1]], ["ZUS Cup"], 1⟩) (fun _ => [1])
        (fun _ _ => "summary") "drop table products" 5).2 = true := by
  refine ⟨by decide, by decide, by decide⟩

/-- C6 as amended: both query operations reject empty/whitespace input,
input with no alphanumeric character, and input over 100 characters or 20
words, with a structured message and no backend call; the outlets operation
additionally rejects input containing `;`, `--`, or a write keyword
followed by a space; the products operation performs no keyword check. -/
theorem C6_input_validation (q : String) :
    ((validate_outlet_query q).isSome =
      ((q.data.isEmpty || (pyStrip q.data).isEmpty) || !hasAlnum q.data ||
       (q.data.length > 100 || pyWordCount q.data > 20) ||
       ([";".data, "--".data, "drop ".data, "delete ".data, "insert ".data,
         "update ".data, "alter ".data, "truncate ".data].any
          (fun kw => decide (kw <:+: q.data.map Char.toLower))))) ∧
    ((validate_product_query q).isSome =
      ((q.data.isEmpty || (pyStrip q.data).isEmpty) || !hasAlnum q.data ||
       (q.data.length > 100 || pyWordCount q.data > 20))) ∧
    (∀ gen db msg, validate_outlet_query q = some msg →
      query_outlets_traced gen db q =
        (OutletsResponse.ok { query := q, sql := none, results := [], count := 0,
                              message := some msg }, false, none)) ∧
    (∀ store embed summarize (tk : Int) msg, 1 ≤ tk → tk ≤ 10 →
      validate_product_query q = some msg →
      search_products_traced (some store) embed summarize q tk =
        (ProductsResponse.ok { query := q, products := [], summary := some msg,
                               total_results := 0 }, false)) := by
  refine ⟨?_, ?_, ?_, ?_⟩
  · unfold validate_outlet_query
    split_ifs with h1 h2 h3 h4 <;> simp_all
  · unfold validate_product_query
    split_ifs with h1 h2 h3 <;> simp_all
  · intro gen db msg h
    unfold query_outlets_traced
    rw [h]
  · intro store embed summarize tk msg hlo hhi hv
    unfold search_products_traced
    have hc1 : ¬ (tk < 1) := by omega
    have hc2 : ¬ (10 < tk) := by omega
    simp [hc1, hc2, hv]

/-- Witness for C6's amended statement: the outlets gate on a `;` input and
the products gate on a whitespace input, both skipping the backend. -/
theorem C6_input_validation_witness :
    query_outlets_traced (fun _ => "SELECT name FROM outlets;") (fun _ => []) "x; y" =
      (OutletsResponse.ok { query := "x; y", sql := none, results := [], count := 0,
                            message := some "Invalid or potentially unsafe query. Please rephrase your request." },
       false, none) ∧
    search_products_traced (some ⟨[[1]], ["ZUS Cup"], 1⟩) (fun _ => [1])
        (fun _ _ => "summary") " " 5 =
      (ProductsResponse.ok { query := " ", products := [],
                             summary := some "No products found matching your search criteria. Please enter a product keyword.",
                             total_results := 0 }, false) :=
  ⟨(C6_input_validation "x; y").2.2.1 _ _ _ (by decide),
   (C6_input_validation " ").2.2.2 _ _ _ 5 _ (by decide) (by decide) (by decide)⟩

/-- Helper for C10: when the scanner never finds a match from the current
left context on, the substitution copies the input verbatim. -/
theorem subTimeAux_of_no_match :
    ∀ (fuel : Nat) (prev : Option Char) (l : List Char),
      hasTimeMatchAux prev l = false → subTimeAux fuel prev l = l := by
  intro fuel
  induction fuel with
  | zero => intro prev l _; rfl
  | succ n ih =>
    intro prev l h
    cases l with
    | nil => rfl
    | cons c rest =>
      unfold hasTimeMatchAux at h
      rw [Bool.or_eq_false_iff] at h
      obtain ⟨h1, h2⟩ := h
      unfold subTimeAux
      by_cases hb : boundaryBeforeOk prev = true
      · rw [hb] at h1
        simp only [Bool.true_and] at h1
        have hm : matchTimeAt (c :: rest) = none := by
          cases hmm : matchTimeAt (c :: rest) with
          | none => rfl
          | some v => rw [hmm] at h1; simp at h1
        simp [hb, hm, ih (some c) rest h2]
      · have hb2 : boundaryBeforeOk prev = false := by
          cases hbv : boundaryBeforeOk prev
          · rfl
          · exact absurd hbv hb
        simp [hb2, ih (some c) rest h2]

/-- C10: a query containing no substring matching the 12-hour time pattern
(one or two digits, optional colon-and-two-digits, optional whitespace,
then AM or PM in any letter case, at word boundaries) is returned unchanged
by the pre-normalization. -/
theorem C10_no_time_unchanged (q : String) (h : containsTimePattern q = false) :
    preprocess_query q = q := by
  unfold containsTimePattern at h
  unfold preprocess_query
  rw [subTimeAux_of_no_match _ _ _ h]

/-- Witness for C10 at a time-free query. -/
theorem C10_no_time_unchanged_witness :
    preprocess_query "outlets in Kuala Lumpur open late" = "outlets in Kuala Lumpur open late" :=
  C10_no_time_unchanged "outlets in Kuala Lumpur open late" (by decide)

/-- The FAISS ordering only ever ranks higher-or-equal scores earlier. -/
theorem simOrder_score_le {a b : ℚ × Nat} (h : simOrder a b) : b.1 ≤ a.1 := by
  rcases h with h | ⟨h, _⟩
  · exact le_of_lt h
  · exact le_of_eq h.symm

/-- The result loop drops every padded (index -1) slot. -/
theorem attachRanks_replicate (ps : List String) :
    ∀ (pad i : Nat),
      attachRanks ps i (List.replicate pad ((0 : ℚ), (none : Option Nat))) = [] := by
  intro pad
  induction pad with
  | zero => intro i; rfl
  | succ n ih => intro i; simp [List.replicate_succ, attachRanks, ih]

/-- Padded slots at the tail contribute nothing to the results. -/
theorem attachRanks_append_pad (ps : List String) (pad : Nat) :
    ∀ (l : List (ℚ × Nat)) (i : Nat),
      attachRanks ps i (l.map (fun p => (p.1, some p.2)) ++
          List.replicate pad ((0 : ℚ), (none : Option Nat))) =
        attachRanks ps i (l.map (fun p => (p.1, some p.2))) := by
  intro l
  induction l with
  | nil => intro i; simp [attachRanks, attachRanks_replicate]
  | cons x xs ih => intro i; simp [attachRanks, ih]

/-- Length of the results built from valid slots. -/
theorem attachRanks_map_length (ps : List String) :
    ∀ (l : List (ℚ × Nat)) (i : Nat),
      (attachRanks ps i (l.map (fun p => (p.1, some p.2)))).length = l.length := by
  intro l
  induction l with
  | nil => intro i; rfl
  | cons x xs ih => intro i; simp [attachRanks, ih]

/-- Ranks of the results built from valid slots are consecutive from i+1. -/
theorem attachRanks_map_rank (ps : List String) :
    ∀ (l : List (ℚ × Nat)) (i : Nat),
      (attachRanks ps i (l.map (fun p => (p.1, some p.2)))).map SearchResult.rank =
        List.range' (i + 1) l.length := by
  intro l
  induction l with
  | nil => intro i; rfl
  | cons x xs ih => intro i; simp [attachRanks, List.range', ih]

/-- Scores of the results built from valid slots are the slot scores. -/
theorem attachRanks_map_score (ps : List String) :
    ∀ (l : List (ℚ × Nat)) (i : Nat),
      (attachRanks ps i (l.map (fun p => (p.1, some p.2)))).map
          SearchResult.similarity_score = l.map Prod.fst := by
  intro l
  induction l with
  | nil => intro i; rfl
  | cons x xs ih => intro i; simp [attachRanks, ih]

/-- Unfolding of `search`: the results are exactly the ranked top-k slots. -/
theorem search_unfold (store : ProductVectorStore) (embed : String → List ℚ)
    (q : String) (k : Nat) :
    store.search embed q k =
      attachRanks store.products 0
        (((List.insertionSort simOrder
            (store.vecs.enum.map (fun p => (dot p.2 (embed q), p.1)))).take k).map
          (fun p => (p.1, some p.2))) := by
  unfold ProductVectorStore.search faissSearch
  exact attachRanks_append_pad _ _ _ _

/-- C3: for every built store and query, `search` returns exactly
`min k N` results whose scores are non-increasing and whose ranks are the
dense 1-based sequence; an empty index yields the empty list for every k;
and a requested `top_k ≤ 0` is rejected by the endpoint's parameter
validation (`Query(5, ge=1, le=10)`) before any search runs. -/
theorem C3_search_contract (store : ProductVectorStore) (embed : String → List ℚ)
    (q : String) (k : Nat) :
    (store.search embed q k).length = min k store.vecs.length ∧
    List.Pairwise (fun a b => b.similarity_score ≤ a.similarity_score)
      (store.search embed q k) ∧
    (store.search embed q k).map SearchResult.rank =
      List.range' 1 (min k store.vecs.length) ∧
    (∀ ps d, (ProductVectorStore.mk [] ps d).search embed q k = []) ∧
    (∀ (store? : Option ProductVectorStore)
       (summarize : String → List SearchResult → String) (n : Nat),
      search_products_traced store? embed summarize q (-(n : Int)) =
        (ProductsResponse.validationError422, false)) := by
  have hlen :
      ((List.insertionSort simOrder
          (store.vecs.enum.map (fun p => (dot p.2 (embed q), p.1)))).take k).length =
        min k store.vecs.length := by
    rw [List.length_take, List.length_insertionSort, List.length_map, List.enum_length]
  refine ⟨?_, ?_, ?_, ?_, ?_⟩
  · rw [search_unfold, attachRanks_map_length, hlen]
  · have hsorted :
        List.Pairwise simOrder
          ((List.insertionSort simOrder
            (store.vecs.enum.map (fun p => (dot p.2 (embed q), p.1)))).take k) :=
      List.Pairwise.sublist (List.take_sublist _ _)
        (List.sorted_insertionSort simOrder _)
    have hscores :
        List.Pairwise (fun x y : ℚ => y ≤ x)
          ((store.search embed q k).map SearchResult.similarity_score) := by
      rw [search_unfold, attachRanks_map_score]
      exact List.pairwise_map.mpr (hsorted.imp simOrder_score_le)
    exact List.pairwise_map.mp hscores
  · rw [search_unfold, attachRanks_map_rank, hlen]
  · intro ps d
    simp [ProductVectorStore.search, faissSearch, List.insertionSort,
          attachRanks_replicate]
  · intro store? summarize n
    have h1 : (-(n : Int)) < 1 := by omega
    unfold search_products_traced
    rw [if_pos]
    simp [h1]

/-- C4 counterexample: a bundle whose header records dimension 5 while its
vectors have dimension 3 is accepted by `load` (which returns a store and
simply adopts the header's dimension) — no `IndexCorruptError` or any other
rejection exists on the load path. -/
theorem C4_counterexample :
    ProductVectorStore.load
        { indexVecs := [[1, 0, 0]], products := ["ZUS Cup"],
          metadata := { model_name := "all-MiniLM-L6-v2", dimension := 5,
                        num_products := 1 } } =
      Except.ok { vecs := [[1, 0, 0]], products := ["ZUS Cup"], dimension := 5 } ∧
    (5 : Nat) ≠ ([[(1 : ℚ), 0, 0]].headD []).length := by
  exact ⟨rfl, by decide⟩

/-- C4 as amended: saving a store and loading the bundle reproduces the very
same store — hence identical `search` results for every embedding oracle,
query and k — but `load` performs no header validation: it adopts the
header's recorded dimension without comparing it to the vectors. -/
theorem C4_save_load_roundtrip (store : ProductVectorStore)
    (embed : String → List ℚ) (q : String) (k : Nat) :
    ∃ loaded, ProductVectorStore.load (ProductVectorStore.save store) =
        Except.ok loaded ∧
      loaded.search embed q k = store.search embed q k := by
  refine ⟨store, ?_, rfl⟩
  cases store
  rfl

/-- A rendered ASCII digit is a Unicode decimal digit. -/
theorem digitCharOf_pyDigit {d : Nat} (hd : d ≤ 9) : pyIsDigit (digitCharOf d) = true := by
  interval_cases d <;> decide

/-- Parsing a rendered ASCII digit recovers its value. -/
theorem digitCharOf_pyVal {d : Nat} (hd : d ≤ 9) : pyDigitVal (digitCharOf d) = d := by
  interval_cases d <;> decide

/-- Python's `%02d` of a value below 100 is its two-digit decimal rendering. -/
theorem format02_two {n : Nat} (hn : n ≤ 99) :
    format02 n = [digitCharOf (n / 10), digitCharOf (n % 10)] := by
  interval_cases n <;> decide

/-- Python's `%02d` restores the two digits a two-digit value came from. -/
theorem format02_pair {a b : Nat} (ha : a ≤ 9) (hb : b ≤ 9) :
    format02 (a * 10 + b) = [digitCharOf a, digitCharOf b] := by
  interval_cases a <;> interval_cases b <;> decide

/-- Whitespace characters are not decimal digits. -/
theorem isPySpace_not_digit {c : Char} (hc : isPySpace c = true) : pyIsDigit c = false := by
  have hmem : c ∈ pyWhitespace := by simpa [isPySpace] using hc
  fin_cases hmem <;> decide

/-- Whitespace characters are not the colon. -/
theorem isPySpace_not_colon {c : Char} (hc : isPySpace c = true) : (c == ':') = false := by
  have hmem : c ∈ pyWhitespace := by simpa [isPySpace] using hc
  fin_cases hmem <;> decide

/-- The AM/PM marker never begins with a digit. -/
theorem periodChars_head_not_digit (pm l1 l2 : Bool) (X : List Char) :
    (periodChars pm l1 l2 ++ X).head?.all (fun c => !pyIsDigit c) = true := by
  cases pm <;> cases l1 <;> cases l2 <;> rfl

/-- The AM/PM marker never begins with a colon. -/
theorem periodChars_head_not_colon (pm l1 l2 : Bool) (X : List Char) :
    (periodChars pm l1 l2 ++ X).head?.all (fun c => !(c == ':')) = true := by
  cases pm <;> cases l1 <;> cases l2 <;> rfl

/-- The AM/PM marker never begins with whitespace. -/
theorem periodChars_head_not_space (pm l1 l2 : Bool) (X : List Char) :
    (periodChars pm l1 l2 ++ X).head?.all (fun c => !isPySpace c) = true := by
  cases pm <;> cases l1 <;> cases l2 <;> rfl

/-- The optional minutes group consumes a rendered `:MM`. -/
theorem matchColonMM_mins {a b : Nat} (ha : a ≤ 9) (hb : b ≤ 9) (rest : List Char) :
    matchColonMM (':' :: digitCharOf a :: digitCharOf b :: rest) =
      (some (a * 10 + b), [':', digitCharOf a, digitCharOf b], rest) := by
  simp [matchColonMM, digitCharOf_pyDigit ha, digitCharOf_pyDigit hb,
        digitCharOf_pyVal ha, digitCharOf_pyVal hb]

/-- The optional minutes group is skipped when no colon starts the text. -/
theorem matchColonMM_not_colon {l : List Char}
    (hl : l.head?.all (fun c => !(c == ':')) = true) :
    matchColonMM l = (none, [], l) := by
  unfold matchColonMM
  split
  · simp at hl
  · rfl

/-- Greedy `\s*` consumes exactly a whitespace run followed by a non-space. -/
theorem takeSpaces_run {ws : List Char} (hws : ws.all isPySpace = true)
    {rest : List Char} (hrest : rest.head?.all (fun c => !isPySpace c) = true) :
    takeSpaces (ws ++ rest) = (ws, rest) := by
  induction ws with
  | nil =>
    cases rest with
    | nil => rfl
    | cons c r =>
      have hc : isPySpace c = false := by simpa using hrest
      simp [takeSpaces, hc]
  | cons w ws2 ih =>
    rw [List.all_cons, Bool.and_eq_true] at hws
    have h2 := ih hws.2
    unfold takeSpaces at h2 ⊢
    rw [Prod.mk.injEq] at h2
    simp [List.takeWhile_cons, List.dropWhile_cons, hws.1, h2.1, h2.2]

/-- The greedy digit group consumes exactly a rendered hour (padded or not)
whenever the following character is not a digit. -/
theorem takeDigits12_hourRender (pad : Bool) (hv : Nat) (h1 : 1 ≤ hv) (h12 : hv ≤ 12)
    (hpad : pad = true → hv ≤ 9) (rest : List Char)
    (hrest : rest.head?.all (fun c => !pyIsDigit c) = true) :
    takeDigits12 (hourRender pad hv ++ rest) = some (hv, hourRender pad hv, rest) := by
  cases pad with
  | true =>
    have h9 := hpad rfl
    have hz : pyIsDigit '0' = true := by decide
    have hzv : pyDigitVal '0' = 0 := by decide
    simp [hourRender, takeDigits12, hz, hzv, digitCharOf_pyDigit h9, digitCharOf_pyVal h9]
  | false =>
    by_cases hlt : hv < 10
    · have h9 : hv ≤ 9 := by omega
      cases rest with
      | nil =>
        simp [hourRender, hourChars, hlt, takeDigits12, digitCharOf_pyDigit h9,
              digitCharOf_pyVal h9]
      | cons c r =>
        have hc : pyIsDigit c = false := by simpa using hrest
        simp [hourRender, hourChars, hlt, takeDigits12, digitCharOf_pyDigit h9,
              digitCharOf_pyVal h9, hc]
    · have e1 : hv / 10 ≤ 9 := by omega
      have e0 : hv % 10 ≤ 9 := by omega
      have hsplit : hourRender false hv = [digitCharOf (hv / 10), digitCharOf (hv % 10)] := by
        simp [hourRender, hourChars, hlt]
      rw [hsplit]
      simp [takeDigits12, digitCharOf_pyDigit e1, digitCharOf_pyDigit e0,
            digitCharOf_pyVal e1, digitCharOf_pyVal e0]
      omega

/-- The AM/PM stage consumes the marker and leaves the suffix. -/
theorem matchPeriod_chars (pm l1 l2 : Bool) (X : List Char) :
    matchPeriod (periodChars pm l1 l2 ++ X) = some (pm, periodChars pm l1 l2, X) := by
  cases pm <;> cases l1 <;> cases l2 <;> rfl

/-- Composition of the four stages of the time matcher on an hour followed
by a tail whose later stages leave the suffix `X`. -/
theorem matchTimeCore_build (pad : Bool) (hv : Nat) (h1 : 1 ≤ hv) (h12 : hv ≤ 12)
    (hpad : pad = true → hv ≤ 9)
    (tail r2 r3 c2 s c3 X : List Char) (m : Option Nat) (pm : Bool)
    (hrest : tail.head?.all (fun c => !pyIsDigit c) = true)
    (hc : matchColonMM tail = (m, c2, r2))
    (hsp : takeSpaces r2 = (s, r3))
    (hp : matchPeriod r3 = some (pm, c3, X)) :
    matchTimeCore (hourRender pad hv ++ tail) =
      some ((hv, m, pm), hourRender pad hv ++ (c2 ++ (s ++ c3)), X) := by
  simp only [matchTimeCore, takeDigits12_hourRender pad hv h1 h12 hpad tail hrest,
             hc, hsp, hp]
  simp [List.append_assoc]

/-- Unpacking of occurrence well-formedness. -/
theorem occWF_spec {t : TimeOcc} (hwf : occWF t = true) :
    1 ≤ t.hour ∧ t.hour ≤ 12 ∧ (t.pad = true → t.hour ≤ 9) ∧
      (∀ ab ∈ t.mins, ab.1 ≤ 9 ∧ ab.2 ≤ 9) ∧ t.ws.all isPySpace = true := by
  unfold occWF at hwf
  rw [Bool.and_eq_true, Bool.and_eq_true, Bool.and_eq_true] at hwf
  obtain ⟨⟨⟨hh, hpad⟩, hm⟩, hws⟩ := hwf
  rw [Bool.and_eq_true] at hh
  refine ⟨by simpa using hh.1, by simpa using hh.2, ?_, ?_, hws⟩
  · intro hp
    rw [hp] at hpad
    simpa using hpad
  · intro ab hab
    cases habm : t.mins with
    | none => rw [habm] at hab; simp at hab
    | some ab2 =>
      rw [habm] at hab hm
      simp only [Option.mem_def, Option.some.injEq] at hab
      subst hab
      simpa using hm

/-- The anchored matcher consumes exactly one well-formed occurrence and
leaves the suffix untouched. -/
theorem matchTimeCore_occ (t : TimeOcc) (hwf : occWF t = true) (X : List Char) :
    matchTimeCore (renderOcc t ++ X) =
      some ((t.hour, t.mins.map (fun ab => ab.1 * 10 + ab.2), t.pm), renderOcc t, X) := by
  obtain ⟨h1, h12, hpad, hm, hws⟩ := occWF_spec hwf
  obtain ⟨pad, hv, mins, ws, pm, l1, l2⟩ := t
  rcases mins with _ | ⟨a, b⟩
  · have hrest : (ws ++ (periodChars pm l1 l2 ++ X)).head?.all
        (fun c => !pyIsDigit c) = true := by
      cases ws with
      | nil => simpa using periodChars_head_not_digit pm l1 l2 X
      | cons w ws2 =>
        have hw : isPySpace w = true := by
          rw [List.all_cons, Bool.and_eq_true] at hws
          exact hws.1
        simp [isPySpace_not_digit hw]
    have hcol : matchColonMM (ws ++ (periodChars pm l1 l2 ++ X)) =
        (none, [], ws ++ (periodChars pm l1 l2 ++ X)) := by
      apply matchColonMM_not_colon
      cases ws with
      | nil => simpa using periodChars_head_not_colon pm l1 l2 X
      | cons w ws2 =>
        have hw : isPySpace w = true := by
          rw [List.all_cons, Bool.and_eq_true] at hws
          exact hws.1
        simp [isPySpace_not_colon hw]
    have hspaces : takeSpaces (ws ++ (periodChars pm l1 l2 ++ X)) =
        (ws, periodChars pm l1 l2 ++ X) :=
      takeSpaces_run hws (periodChars_head_not_space pm l1 l2 X)
    have hbuild := matchTimeCore_build pad hv h1 h12 hpad
      (ws ++ (periodChars pm l1 l2 ++ X)) _ _ _ _ _ _ _ _
      hrest hcol hspaces (matchPeriod_chars pm l1 l2 X)
    have hr : renderOcc ⟨pad, hv, none, ws, pm, l1, l2⟩ ++ X =
        hourRender pad hv ++ (ws ++ (periodChars pm l1 l2 ++ X)) := by
      simp [renderOcc, List.append_assoc]
    rw [hr, hbuild]
    simp [renderOcc, List.append_assoc]
  · obtain ⟨ha, hb⟩ := hm (a, b) rfl
    have hrest : ((':' :: digitCharOf a :: digitCharOf b ::
        (ws ++ (periodChars pm l1 l2 ++ X)))).head?.all
        (fun c => !pyIsDigit c) = true := by rfl
    have hcol := matchColonMM_mins ha hb (ws ++ (periodChars pm l1 l2 ++ X))
    have hspaces : takeSpaces (ws ++ (periodChars pm l1 l2 ++ X)) =
        (ws, periodChars pm l1 l2 ++ X) :=
      takeSpaces_run hws (periodChars_head_not_space pm l1 l2 X)
    have hbuild := matchTimeCore_build pad hv h1 h12 hpad
      (':' :: digitCharOf a :: digitCharOf b :: (ws ++ (periodChars pm l1 l2 ++ X)))
      _ _ _ _ _ _ _ _ hrest hcol hspaces (matchPeriod_chars pm l1 l2 X)
    have hr : renderOcc ⟨pad, hv, some (a, b), ws, pm, l1, l2⟩ ++ X =
        hourRender pad hv ++ (':' :: digitCharOf a :: digitCharOf b ::
          (ws ++ (periodChars pm l1 l2 ++ X))) := by
      simp [renderOcc, List.append_assoc]
    rw [hr, hbuild]
    simp [renderOcc, List.append_assoc]

/-- A rendered occurrence is never empty. -/
theorem renderOcc_ne_nil (t : TimeOcc) : renderOcc t ≠ [] := by
  obtain ⟨pad, hv, mins, ws, pm, l1, l2⟩ := t
  cases pad
  · by_cases hlt : hv < 10 <;> simp [renderOcc, hourRender, hourChars, hlt]
  · simp [renderOcc, hourRender]

/-- The anchored matcher with trailing boundary accepts a full occurrence
when the suffix opens with a non-word character or is empty. -/
theorem matchTimeAt_occ (t : TimeOcc) (hwf : occWF t = true) (X : List Char)
    (hX : X.head?.all (fun c => !isWordChar c) = true) :
    matchTimeAt (renderOcc t ++ X) =
      some ((t.hour, t.mins.map (fun ab => ab.1 * 10 + ab.2), t.pm), renderOcc t, X) := by
  unfold matchTimeAt
  rw [matchTimeCore_occ t hwf X]
  cases X with
  | nil => rfl
  | cons c r =>
    have hc : isWordChar c = false := by simpa using hX
    simp [hc]

/-- The inner search succeeds at position zero whenever the core matcher does. -/
theorem innerSearchTime_of_core (l : List Char) (hl : l ≠ [])
    (parts : Nat × Option Nat × Bool) (consumed rest : List Char)
    (h : matchTimeCore l = some (parts, consumed, rest)) :
    innerSearchTime l = some parts := by
  cases l with
  | nil => exact absurd rfl hl
  | cons c r =>
    unfold innerSearchTime
    rw [h]

/-- The converted output equals the canonical 24-hour form the specification
describes, for hours 1-12 and two-digit minutes. -/
theorem canonical_eq (h : Nat) (h1 : 1 ≤ h) (h12 : h ≤ 12)
    (mins : Option (Nat × Nat)) (hm : ∀ ab ∈ mins, ab.1 ≤ 9 ∧ ab.2 ≤ 9) (pm : Bool) :
    format02 (to24 h pm) ++ ':' ::
        format02 ((mins.map (fun ab => ab.1 * 10 + ab.2)).getD 0) =
      claimedCanonical h mins pm := by
  have hr : to24 h pm =
      (if pm then (if h = 12 then 12 else h + 12) else (if h = 12 then 0 else h)) := by
    unfold to24
    cases pm <;> by_cases hh : h = 12 <;> simp [hh]
  have hb : to24 h pm ≤ 99 := by
    unfold to24
    split <;> split <;> omega
  rcases mins with _ | ⟨a, b⟩
  · unfold claimedCanonical
    rw [format02_two hb, hr]
    rfl
  · obtain ⟨ha, hbd⟩ := hm (a, b) rfl
    unfold claimedCanonical
    rw [format02_two hb, hr]
    simp only [Option.map_some', Option.getD_some]
    rw [format02_pair ha hbd]

/-- The replacement computed by `convert_time` on one occurrence is exactly
the canonical form the specification claims. -/
theorem convert_time_occ (t : TimeOcc) (hwf : occWF t = true) :
    convert_time (renderOcc t) = claimedCanonical t.hour t.mins t.pm := by
  obtain ⟨h1, h12, hpad, hm, hws⟩ := occWF_spec hwf
  have hcore := matchTimeCore_occ t hwf []
  rw [List.append_nil] at hcore
  unfold convert_time
  rw [innerSearchTime_of_core _ (renderOcc_ne_nil t) _ _ _ hcore]
  exact canonical_eq t.hour h1 h12 t.mins hm t.pm

/-- The substitution scanner on an empty remainder. -/
theorem subTimeAux_nil (fuel : Nat) (prev : Option Char) :
    subTimeAux fuel prev [] = [] := by
  cases fuel <;> rfl

/-- No match can start at a non-digit character. -/
theorem matchTimeAt_nondigit {c : Char} (hc : pyIsDigit c = false) (l : List Char) :
    matchTimeAt (c :: l) = none := by
  have hd : takeDigits12 (c :: l) = none := by
    cases l <;> simp [takeDigits12, hc]
  simp [matchTimeAt, matchTimeCore, hd]

/-- Left context after scanning one more character. -/
theorem getLast?_or_cons (c : Char) (g : List Char) (prev : Option Char) :
    (((c :: g).getLast?).or prev) = ((g.getLast?).or (some c)) := by
  cases g with
  | nil => rfl
  | cons c2 g2 =>
    rw [List.getLast?_cons_cons]
    cases hg : (c2 :: g2).getLast? with
    | none =>
      rw [List.getLast?_eq_none_iff] at hg
      exact absurd hg (by simp)
    | some x => simp [Option.or]

/-- The scanner copies a digit-free gap verbatim and continues with the
gap's last character as left context. -/
theorem subTimeAux_copy (g : List Char) (hg : g.all (fun c => !pyIsDigit c) = true) :
    ∀ (m : Nat) (prev : Option Char) (rest : List Char),
      subTimeAux (g.length + m) prev (g ++ rest) =
        g ++ subTimeAux m ((g.getLast?).or prev) rest := by
  induction g with
  | nil => intro m prev rest; simp [Option.or]
  | cons c g2 ih =>
    intro m prev rest
    rw [List.all_cons, Bool.and_eq_true] at hg
    have hc : pyIsDigit c = false := by simpa using hg.1
    have hl : (c :: g2).length + m = (g2.length + m) + 1 := by
      simp [List.length_cons]
      omega
    rw [hl]
    show subTimeAux ((g2.length + m) + 1) prev (c :: (g2 ++ rest)) = _
    cases hbv : boundaryBeforeOk prev with
    | true =>
      simp only [subTimeAux, hbv, if_true, matchTimeAt_nondigit hc]
      simp [ih hg.2 m (some c) rest, getLast?_or_cons]
    | false =>
      simp only [subTimeAux, hbv, Bool.false_eq_true, if_false]
      simp [ih hg.2 m (some c) rest, getLast?_or_cons]

/-- The scanner rewrites a well-formed alternation of occurrences and gaps:
every occurrence becomes its canonical form and every gap is copied. -/
theorem subTimeAux_segs :
    ∀ (segs : List (TimeOcc × List Char)), segsWF segs = true →
      ∀ (fuel : Nat) (prev : Option Char),
        (renderSegs segs).length ≤ fuel → boundaryBeforeOk prev = true →
        subTimeAux fuel prev (renderSegs segs) = rewriteSegs segs := by
  intro segs
  induction segs with
  | nil =>
    intro _ fuel prev _ _
    simp [renderSegs, rewriteSegs, subTimeAux_nil]
  | cons seg rest ih =>
    obtain ⟨t, g⟩ := seg
    intro hwf fuel prev hfuel hb
    simp only [segsWF, Bool.and_eq_true] at hwf
    obtain ⟨⟨⟨⟨hocc, hgd⟩, hgh⟩, hgl⟩, hrest⟩ := hwf
    have hXhead : (g ++ renderSegs rest).head?.all (fun c => !isWordChar c) = true := by
      cases g with
      | cons w g2 => simpa using hgh
      | nil =>
        cases rest with
        | nil => simp [renderSegs]
        | cons r2 rs2 => simp at hgl
    have hat := matchTimeAt_occ t hocc (g ++ renderSegs rest) hXhead
    obtain ⟨rc, rtl, hrc⟩ : ∃ rc rtl, renderOcc t = rc :: rtl := by
      cases hv : renderOcc t with
      | nil => exact absurd hv (renderOcc_ne_nil t)
      | cons x xs => exact ⟨x, xs, rfl⟩
    have hquery : renderSegs ((t, g) :: rest) = rc :: (rtl ++ (g ++ renderSegs rest)) := by
      simp [renderSegs, hrc]
    rw [hquery] at hfuel
    simp only [List.length_cons, List.length_append] at hfuel
    obtain ⟨n, rfl⟩ : ∃ n, fuel = n + 1 := ⟨fuel - 1, by omega⟩
    have hat2 : matchTimeAt (rc :: (rtl ++ (g ++ renderSegs rest))) =
        some ((t.hour, t.mins.map (fun ab => ab.1 * 10 + ab.2), t.pm),
              rc :: rtl, g ++ renderSegs rest) := by
      rw [hrc] at hat
      simpa using hat
    rw [hquery]
    simp only [subTimeAux, hb, if_true, hat2]
    obtain ⟨m2, hm2⟩ : ∃ m2, n = g.length + m2 := ⟨n - g.length, by omega⟩
    rw [hm2, subTimeAux_copy g hgd]
    cases rest with
    | nil =>
      simp [renderSegs, rewriteSegs, subTimeAux_nil, ← hrc, convert_time_occ t hocc]
    | cons r2 rs2 =>
      rw [Bool.and_eq_true] at hgl
      obtain ⟨hgne, hglw⟩ := hgl
      have hbnext : boundaryBeforeOk ((g.getLast?).or (some ((rc :: rtl).getLastD rc))) = true := by
        cases hgeq : g.getLast? with
        | none =>
          rw [List.getLast?_eq_none_iff] at hgeq
          rw [hgeq] at hgne
          simp at hgne
        | some x =>
          have hxw : isWordChar x = false := by
            rw [hgeq] at hglw
            simpa using hglw
          simp [Option.or, boundaryBeforeOk, hxw]
      rw [ih hrest m2 _ (by omega) hbnext]
      rw [← hrc, convert_time_occ t hocc]
      simp [rewriteSegs, List.append_assoc]

/-- C5: for every query string assembled as a leading gap followed by
alternating 12-hour time-of-day expressions and gaps — each expression an
hour 1-12 (optionally zero-padded), optional two-digit `:MM` minutes, a
whitespace run, and AM or PM in any letter case; each gap digit-free and
bounded by non-word characters as the pattern's word boundaries require —
the pre-normalization rewrites every embedded expression to the canonical
24-hour `HH:MM` form (12 AM maps to hour 00, 12 PM stays 12, any other PM
hour gains 12, any other AM hour is unchanged, absent minutes become `00`,
the hour zero-padded to two digits) and leaves every gap untouched. -/
theorem C5_time_rewrite (lead : List Char) (segs : List (TimeOcc × List Char))
    (hld : lead.all (fun c => !pyIsDigit c) = true)
    (hlw : lead.getLast?.all (fun c => !isWordChar c) = true)
    (hsegs : segsWF segs = true) :
    preprocess_query (String.mk (lead ++ renderSegs segs)) =
      String.mk (lead ++ rewriteSegs segs) := by
  unfold preprocess_query
  show String.mk (subTimeAux (lead ++ renderSegs segs).length none
        (lead ++ renderSegs segs)) = _
  rw [List.length_append, subTimeAux_copy lead hld]
  have hbnd : boundaryBeforeOk ((lead.getLast?).or none) = true := by
    cases hgeq : lead.getLast? with
    | none => rfl
    | some x =>
      have hxw : isWordChar x = false := by
        rw [hgeq] at hlw
        simpa using hlw
      simp [Option.or, boundaryBeforeOk, hxw]
  rw [subTimeAux_segs segs hsegs _ _ (le_refl _) hbnd]

/-- Witness for C5 on a query with a word prefix and two embedded
occurrences: "open until 10 PM and 9:05am" becomes
"open until 22:00 and 09:05". -/
theorem C5_time_rewrite_witness :
    preprocess_query (String.mk ("open until ".data ++
        renderSegs [(⟨false, 10, none, [' '], true, false, false⟩, " and ".data),
                    (⟨false, 9, some (0, 5), [], false, true, true⟩, [])])) =
      String.mk ("open until ".data ++
        rewriteSegs [(⟨false, 10, none, [' '], true, false, false⟩, " and ".data),
                     (⟨false, 9, some (0, 5), [], false, true, true⟩, [])]) ∧
    String.mk ("open until ".data ++
        renderSegs [(⟨false, 10, none, [' '], true, false, false⟩, " and ".data),
                    (⟨false, 9, some (0, 5), [], false, true, true⟩, [])]) =
      "open until 10 PM and 9:05am" ∧
    String.mk ("open until ".data ++
        rewriteSegs [(⟨false, 10, none, [' '], true, false, false⟩, " and ".data),
                     (⟨false, 9, some (0, 5), [], false, true, true⟩, [])]) =
      "open until 22:00 and 09:05" :=
  ⟨C5_time_rewrite "open until ".data
      [(⟨false, 10, none, [' '], true, false, false⟩, " and ".data),
       (⟨false, 9, some (0, 5), [], false, true, true⟩, [])]
      (by decide) (by decide) (by decide),
   by decide, by decide⟩

/-- Unicode fidelity of the digit class: a non-ASCII decimal digit is
matched and rewritten with its decimal value, exactly as the source
pattern's Unicode `\d` does. -/
theorem preprocess_unicode_digit_fidelity :
    preprocess_query "٥ pm" = "17:00" ∧ containsTimePattern "٥ pm" = true ∧
    preprocess_query "5:٥٥ PM" = "17:55" := by
  refine ⟨by decide, by decide, by decide⟩

/-- Unicode fidelity of the word class: a non-ASCII word character blocks
the leading word boundary, so the expression is left unchanged, exactly as
the source pattern's Unicode `\b` does. -/
theorem preprocess_unicode_word_fidelity :
    preprocess_query "café10 PM" = "café10 PM" ∧
    containsTimePattern "café10 PM" = false := by
  refine ⟨by decide, by decide⟩
